import Mathlib

/-!
# Verification of the light flooding application (`openapps/light/light.c`)

A shallow embedding of `light.c`.  The module's single global `light_vars` is
passed explicitly; every handler returns the new `light_vars` together with the
ordered list of calls it made to its collaborators (buffers, timers, scheduler,
link layer, debug pins, serial log).  Results of collaborator queries are read
from an `Env` record.

Machine integers are natural numbers or integers with explicit reduction:
`uint16_t` values are reduced modulo `2^16`, `uint8_t` values modulo `2^8`.
The width of the C type `int` is a field of the configuration, because it
decides how the mixed `int16_t`/`uint16_t` comparisons of the source are
evaluated.

The header `light.h` is not available: its macros are fields of `Config`, its
two record types are reconstructed from their uses in `light.c`.
-/

namespace Light

/-! ## Machine integers -/

/-- Conversion of an integer value to `uint16_t`. -/
def toU16 (x : Int) : Nat := (x % 65536).toNat

/-- Conversion of an integer value to `int16_t` (two's complement). -/
def toI16 (x : Int) : Int := (x + 32768) % 65536 - 32768

/-- Read of one `uint8_t` of a payload; `i` is the offset from `pkt->payload`.
Bytes beyond those listed read as 0. -/
def byteAt (payload : List Nat) (i : Nat) : Nat := payload.getD i 0 % 256

/-! ## Types of the surrounding stack (only what `light.c` touches) -/

abbrev opentimer_id_t := Nat

/-- Component identifiers used as ownership tags. -/
inductive component_t
  | COMPONENT_NULL
  | COMPONENT_LIGHT
  | COMPONENT_OTHER
deriving DecidableEq, Repr

/-- The fields of a packet buffer that `light.c` reads or writes.  `payload`
lists the bytes from `pkt->payload` onwards. -/
structure OpenQueueEntry_t where
  owner : component_t
  creator : component_t
  payload : List Nat
  l2_floodingCounter : Int
  l2_floodingState : Bool
  l2_rank : Nat
deriving DecidableEq, Repr

/-- Codes passed to the serial log. -/
inductive errcode_t
  | ERR_LIGHT_THRESHOLD
  | ERR_NO_FREE_PACKET_BUFFER
  | ERR_FLOOD_SEND
  | ERR_FLOOD_GEN
  | ERR_FLOOD_RCV
  | ERR_FLOOD_DROP
  | ERR_FLOOD_FW
  | ERR_FLOOD_STATE
deriving DecidableEq, Repr

inductive timer_type_t
  | TIMER_PERIODIC
  | TIMER_ONESHOT
deriving DecidableEq, Repr

/-- The two timer callbacks of the module. -/
inductive timer_cb_t
  | light_timer_send_cb
  | light_timer_fwd_cb
deriving DecidableEq, Repr

/-- The header written by `light_format_packet` (`light_ht` of `light.h`). -/
structure light_ht where
  type : Nat
  src : Nat
  seqnum : Nat
  light_state : Bool
deriving DecidableEq, Repr

/-- Modelled from the spec: the byte layout of `light_ht`, whose declaration
(`light.h`) is missing.  Section 6 fixes the byte offsets of the record: the
sequence number little-endian at payload offsets 0-1 (`seqnum = payload[0] |
payload[1]<<8`) and the state, 0 or 1, at offset 2 (`state = payload[2]`).  The
type tag and the source id, two bytes each and little-endian, follow. -/
def light_ht_bytes (h : light_ht) : List Nat :=
  [ h.seqnum % 256, h.seqnum / 256 % 256,
    if h.light_state then 1 else 0,
    h.type % 256, h.type / 256 % 256,
    h.src % 256, h.src / 256 % 256 ]

/-- The module state `light_vars_t` (`light.h`), reconstructed from the fields
`light.c` uses.  `seqnum` and `light_reading` are `uint16_t`,
`numBurstPktsSent` is `uint8_t`, `pktToForward` is a buffer pointer
(`none` is `NULL`). -/
structure light_vars_t where
  seqnum : Nat
  light_state : Bool
  light_reading : Nat
  numBurstPktsSent : Nat
  busyForwarding : Bool
  pktToForward : Option OpenQueueEntry_t
  sendTimerId : opentimer_id_t
  fwTimerId : opentimer_id_t
  lastEventAsn : Nat
deriving DecidableEq, Repr

/-- Compile-time configuration (`light.h` macros, the width of `int`) and the
static identity of the node. -/
structure Config where
  /-- `true` when the C type `int` is wider than 16 bits (so `int16_t` and
  `uint16_t` operands are both promoted to `int`); `false` on a 16-bit target,
  where a signed operand is converted to `unsigned int`. -/
  int_wide : Bool
  LUX_THRESHOLD : Nat
  LUX_HYSTERESIS : Nat
  LIGHT_BURSTSIZE : Nat
  LIGHT_SEND_PERIOD_MS : Nat
  LIGHT_FAKESEND_PERIOD : Nat
  SENSOR_ID : Nat
  SINK_ID : Nat
  LIGHT_FAKESEND : Bool
  LIGHT_DEBUG : Bool
  LIGHT_CALCULATE_DELAY : Bool
  LIGHT_PRINTOUT_READING : Bool
  /-- `idmanager_getMyID(ADDR_64B)->addr_64b`. -/
  addr_64b : List Nat
  /-- `idmanager_getMyShortID()`. -/
  myShortID : Nat

/-- What the collaborators answer during one handler invocation. -/
structure Env where
  /-- `ieee154e_isSynch()`. -/
  isSynch : Bool
  /-- `sensors_is_present(SENSOR_LIGHT)`. -/
  sensor_present : Bool
  /-- Value returned by the light sensor's read callback. -/
  sensor_value : Nat
  /-- `ieee154e_asnDiff(&light_vars.lastEventAsn)`. -/
  asnDiff : Nat
  /-- The ASN stored by `ieee154e_getAsnStruct`. -/
  asn : Nat
  /-- `openqueue_getFreePacketBuffer(COMPONENT_LIGHT)`; `none` is `NULL`. -/
  freeBuffer : Option OpenQueueEntry_t
  /-- `openrandom_get16b()`. -/
  random16 : Nat
  /-- `neighbors_getMyDAGrank()`. -/
  myDAGrank : Nat
  /-- `sixtop_send(..) == E_FAIL`. -/
  send_fails : Bool
  /-- Identifier returned by `opentimers_start`. -/
  timerId : opentimer_id_t

/-- Calls made to the collaborators, in program order.  A buffer pointer
argument is an `Option`: `none` is `NULL`. -/
inductive Effect
  | debugpins_rxlight_set
  | debugpins_rxlight_clr
  | debugpins_txlight_set
  | debugpins_txlight_clr
  | openserial_printInfo (code : errcode_t) (arg1 arg2 : Nat)
  | openserial_printError (code : errcode_t) (arg1 arg2 : Nat)
  | openqueue_getFreePacketBuffer
  | openqueue_freePacketBuffer (pkt : Option OpenQueueEntry_t)
  | opentimers_start (duration : Nat) (type : timer_type_t) (cb : timer_cb_t)
  | opentimers_stop (id : opentimer_id_t)
  | scheduler_push_task
  | sixtop_send (pkt : Option OpenQueueEntry_t)
  | ieee154e_getAsnStruct
deriving DecidableEq, Repr

/-! ## `light.c` -/

/-- Encoding of a `bool` passed as `errorparameter_t`. -/
def boolParam (b : Bool) : Nat := if b then 1 else 0

/-- Value of an `int` constant expression as it enters a comparison with a
`uint16_t` operand: unchanged when `int` is wide, converted to `unsigned int`
on a 16-bit target. -/
def intOperand (c : Config) (k : Int) : Int :=
  if c.int_wide then k else (toU16 k : Int)

/-- `light_checkMyId`: the last two bytes of the 64-bit address against the
16-bit `addr` argument. -/
def light_checkMyId (c : Config) (addr : Nat) : Bool :=
  (byteAt c.addr_64b 7 == (addr % 65536) &&& 0xff) &&
  (byteAt c.addr_64b 6 == (addr % 65536) >>> 8)

/-- The cleared `light_vars` (`memset(&light_vars,0,..)`). -/
def light_vars_zero : light_vars_t :=
  { seqnum := 0, light_state := false, light_reading := 0, numBurstPktsSent := 0,
    busyForwarding := false, pktToForward := none, sendTimerId := 0, fwTimerId := 0,
    lastEventAsn := 0 }

/-- `light_init`. -/
def light_init (c : Config) (e : Env) : light_vars_t × List Effect :=
  (light_vars_zero,
   (if c.LIGHT_PRINTOUT_READING && light_checkMyId c c.SENSOR_ID && e.sensor_present then
      [Effect.openserial_printInfo errcode_t.ERR_LIGHT_THRESHOLD (e.sensor_value % 65536) 0]
    else []) ++
   [Effect.debugpins_rxlight_clr, Effect.debugpins_txlight_clr])

/-- The value of `light_vars.light_reading` after the first part of
`light_trigger` (sensor read, or the synthesized reading under
`LIGHT_FAKESEND`). -/
def light_read (c : Config) (e : Env) (v : light_vars_t) : Nat :=
  if c.LIGHT_FAKESEND then
    if ((e.asnDiff % 65536 : Nat) : Int) > intOperand c c.LIGHT_FAKESEND_PERIOD then
      if (v.light_reading : Int) < intOperand c c.LUX_THRESHOLD then
        toU16 (2 * (c.LUX_THRESHOLD : Int))
      else 0
    else v.light_reading
  else e.sensor_value % 65536

/-- The test of line 104 (the light was just turned on), on the current
`light_state` and `light_reading`. -/
def light_rising (c : Config) (state : Bool) (reading : Nat) : Bool :=
  state == false &&
    decide ((reading : Int) ≥ intOperand c ((c.LUX_THRESHOLD : Int) + c.LUX_HYSTERESIS))

/-- The test of line 110 (the light was just turned off). -/
def light_falling (c : Config) (state : Bool) (reading : Nat) : Bool :=
  state == true &&
    decide ((reading : Int) < intOperand c ((c.LUX_THRESHOLD : Int) - c.LUX_HYSTERESIS))

/-- Lines 127-144 of `light_trigger`: what follows a detected switch to
`state`. -/
def light_start_burst (c : Config) (e : Env) (v : light_vars_t) (state : Bool) :
    light_vars_t × List Effect :=
  ({ v with light_state := state, lastEventAsn := e.asn,
            seqnum := (v.seqnum + 1) % 65536, numBurstPktsSent := 0,
            sendTimerId := e.timerId },
   [if state then Effect.debugpins_txlight_set else Effect.debugpins_txlight_clr,
    Effect.ieee154e_getAsnStruct,
    Effect.opentimers_start c.LIGHT_SEND_PERIOD_MS timer_type_t.TIMER_PERIODIC
      timer_cb_t.light_timer_send_cb])

/-- `light_trigger`. -/
def light_trigger (c : Config) (e : Env) (v : light_vars_t) : light_vars_t × List Effect :=
  if light_checkMyId c c.SENSOR_ID == false || e.sensor_present == false then
    (v, [])
  else
    let v1 := { v with light_reading := light_read c e v }
    if light_rising c v1.light_state v1.light_reading then
      light_start_burst c e v1 true
    else if light_falling c v1.light_state v1.light_reading then
      light_start_burst c e v1 false
    else
      (v1, [])

/-- `light_timer_send_cb`. -/
def light_timer_send_cb (c : Config) (timerId : opentimer_id_t) (v : light_vars_t) :
    light_vars_t × List Effect :=
  if v.numBurstPktsSent < c.LIGHT_BURSTSIZE then
    ({ v with numBurstPktsSent := (v.numBurstPktsSent + 1) % 256 },
     [Effect.scheduler_push_task])
  else
    (v, [Effect.opentimers_stop timerId])

/-- The four header fields as `light_format_packet` assigns them (lines
192-195). -/
def light_header (c : Config) (v : light_vars_t) : light_ht :=
  { type := 0xdddd, src := c.myShortID % 65536, seqnum := v.seqnum,
    light_state := v.light_state }

/-- `light_format_packet`: ownership tags, then the header is prepended
(`packetfunctions_reserveHeaderSize`) and filled from `light_vars`. -/
def light_format_packet (c : Config) (v : light_vars_t) (pkt : OpenQueueEntry_t) :
    OpenQueueEntry_t :=
  { pkt with
    owner := component_t.COMPONENT_LIGHT
    creator := component_t.COMPONENT_LIGHT
    payload := light_ht_bytes (light_header c v) ++ pkt.payload }

/-- `light_send_task_cb`. -/
def light_send_task_cb (c : Config) (e : Env) (v : light_vars_t) : light_vars_t × List Effect :=
  match e.freeBuffer with
  | none =>
    (v, [Effect.openqueue_getFreePacketBuffer,
         Effect.openserial_printError errcode_t.ERR_NO_FREE_PACKET_BUFFER 0 0])
  | some buf =>
    let pktToSend := light_format_packet c v buf
    (v, [Effect.openqueue_getFreePacketBuffer] ++
        (if c.LIGHT_DEBUG then
           [Effect.openserial_printInfo errcode_t.ERR_FLOOD_SEND v.seqnum (boolParam v.light_state)]
         else []) ++
        [Effect.sixtop_send (some pktToSend)] ++
        (if e.send_fails then [Effect.openqueue_freePacketBuffer (some pktToSend)] else []))

/-- `light_sendDone`. -/
def light_sendDone (msg : OpenQueueEntry_t) (v : light_vars_t) : light_vars_t × List Effect :=
  (v, [Effect.openqueue_freePacketBuffer (some msg)])

/-- `light_process_packet_at_sink`. -/
def light_process_packet_at_sink (c : Config) (v : light_vars_t) : List Effect :=
  [if v.light_state == true then Effect.debugpins_rxlight_set else Effect.debugpins_rxlight_clr] ++
  (if c.LIGHT_CALCULATE_DELAY then []
   else [Effect.openserial_printInfo errcode_t.ERR_FLOOD_STATE (boolParam v.light_state) 0])

/-- The tail shared by both receive handlers: allocate, format, remember the
packet, mark busy and start the one-shot forward timer (lines 256-279 and
358-381).  `tag` is the third argument of the error report, `info` and
`a1`, `a2` the debug report. -/
def light_schedule_fwd (c : Config) (e : Env) (v : light_vars_t) (tag : Nat)
    (info : errcode_t) (a1 a2 : Nat) : light_vars_t × List Effect :=
  match e.freeBuffer with
  | none =>
    (v, [Effect.openqueue_getFreePacketBuffer,
         Effect.openserial_printError errcode_t.ERR_NO_FREE_PACKET_BUFFER tag 0])
  | some buf =>
    ({ v with pktToForward := some (light_format_packet c v buf),
              busyForwarding := true,
              fwTimerId := e.timerId },
     [Effect.openqueue_getFreePacketBuffer,
      Effect.opentimers_start (e.random16 % 65536 &&& 0x3f) timer_type_t.TIMER_ONESHOT
        timer_cb_t.light_timer_fwd_cb] ++
     (if c.LIGHT_DEBUG then [Effect.openserial_printInfo info a1 a2] else []))

/-- The test `counter >= light_vars.seqnum` of `light_receive_beacon`, with
`counter` an `int16_t` and `seqnum` a `uint16_t`. -/
def beacon_is_recent (c : Config) (counter : Int) (seqnum : Nat) : Bool :=
  if c.int_wide then decide (counter ≥ (seqnum : Int))
  else decide (toU16 counter ≥ seqnum)

/-- `light_receive_beacon`.  The ownership tag written into the received
beacon is not part of the result: the buffer stays with the caller and
`light.c` does not read the tag again. -/
def light_receive_beacon (c : Config) (e : Env) (pkt : OpenQueueEntry_t) (v : light_vars_t) :
    light_vars_t × List Effect :=
  if e.isSynch == false then (v, [])
  else
    let counter : Int := toI16 pkt.l2_floodingCounter
    let state : Bool := pkt.l2_floodingState
    if beacon_is_recent c counter v.seqnum then
      let v1 := { v with seqnum := toU16 counter }
      if v1.light_state != state then
        let v2 := if !light_checkMyId c c.SENSOR_ID then { v1 with light_state := state } else v1
        if light_checkMyId c c.SINK_ID then
          (v2, light_process_packet_at_sink c v2)
        else (v2, [])
      else (v1, [])
    else if v.light_state == state || v.busyForwarding == true ||
        decide (pkt.l2_rank ≥ e.myDAGrank) then
      (v, [])
    else
      light_schedule_fwd c e v 2 errcode_t.ERR_FLOOD_GEN v.seqnum (boolParam v.light_state)

/-- The decoder of `light_receive_data` (lines 302 and 305), on the bytes from
`pkt->payload` onwards. -/
def light_decode (payload : List Nat) : Nat × Bool :=
  ((byteAt payload 0 ||| (byteAt payload 1 <<< 8)) % 65536,
   byteAt payload 2 != 0)

/-- `light_receive_data`. -/
def light_receive_data (c : Config) (e : Env) (pkt : OpenQueueEntry_t) (v : light_vars_t) :
    light_vars_t × List Effect :=
  if e.isSynch == false then
    (v, [Effect.openqueue_freePacketBuffer (some pkt)])
  else
    let pkt1 := { pkt with owner := component_t.COMPONENT_LIGHT }
    let seqnum := (light_decode pkt1.payload).1
    let light_state := (light_decode pkt1.payload).2
    let t0 :=
      (if c.LIGHT_DEBUG then
         [Effect.openserial_printInfo errcode_t.ERR_FLOOD_RCV seqnum (boolParam light_state)]
       else []) ++
      [Effect.openqueue_freePacketBuffer (some pkt1)]
    if seqnum ≤ v.seqnum then
      (v, t0 ++
        (if c.LIGHT_DEBUG then
           [Effect.openserial_printInfo errcode_t.ERR_FLOOD_DROP seqnum (boolParam light_state)]
         else []))
    else
      let v1 := { v with seqnum := seqnum, light_state := light_state }
      if light_checkMyId c c.SINK_ID then
        (v1, t0 ++ light_process_packet_at_sink c v1)
      else if v1.busyForwarding == true then
        (v1, t0)
      else
        let r := light_schedule_fwd c e v1 1 errcode_t.ERR_FLOOD_FW seqnum (boolParam light_state)
        (r.1, t0 ++ r.2)

/-- `light_timer_fwd_cb`. -/
def light_timer_fwd_cb (e : Env) (v : light_vars_t) : light_vars_t × List Effect :=
  ({ v with busyForwarding := false, pktToForward := none },
   [Effect.sixtop_send v.pktToForward] ++
   (if e.send_fails then [Effect.openqueue_freePacketBuffer v.pktToForward] else []))

/-- `light_get_light_state`. -/
def light_get_light_state (v : light_vars_t) : Bool := v.light_state

/-- `light_get_seqnum`. -/
def light_get_seqnum (v : light_vars_t) : Nat := v.seqnum

/-! ## The node as an event-driven system

The handlers above are run by the timer service, the scheduler and the lower
layers.  `Node` keeps, next to `light_vars`, what those services hold on behalf
of the module: the one-shot forward timers that were started and have not
fired, the running periodic burst timers, and the send tasks pushed and not yet
run.  These counters are derived from the calls the handlers make, never from
`light_vars`.  `opentimers_start` is taken to succeed. -/

/-- The effect is a start of a timer with callback `cb`. -/
def Effect.starts (cb : timer_cb_t) : Effect → Bool
  | .opentimers_start _ _ cb1 => cb1 == cb
  | _ => false

/-- The effect is an `opentimers_stop`. -/
def Effect.is_stop : Effect → Bool
  | .opentimers_stop _ => true
  | _ => false

/-- The effect is a `scheduler_push_task`. -/
def Effect.is_push : Effect → Bool
  | .scheduler_push_task => true
  | _ => false

/-- The effect is a buffer allocation. -/
def Effect.is_alloc : Effect → Bool
  | .openqueue_getFreePacketBuffer => true
  | _ => false

/-- The effect is a `sixtop_send`. -/
def Effect.is_send : Effect → Bool
  | .sixtop_send _ => true
  | _ => false

/-- The effect is one of those `light_process_packet_at_sink` produces: a
write of the rxlight pin or the `ERR_FLOOD_STATE` report. -/
def Effect.at_sink : Effect → Bool
  | .debugpins_rxlight_set => true
  | .debugpins_rxlight_clr => true
  | .openserial_printInfo errcode_t.ERR_FLOOD_STATE _ _ => true
  | _ => false

/-- The effect is a write of the rxlight pin (the sink's indicator). -/
def Effect.is_indicator : Effect → Bool
  | .debugpins_rxlight_set => true
  | .debugpins_rxlight_clr => true
  | _ => false

structure Node where
  vars : light_vars_t
  /-- One-shot forward timers started and not yet fired. -/
  fwd_timers : Nat
  /-- Periodic burst timers running. -/
  send_timers : Nat
  /-- Send tasks pushed and not yet run. -/
  tasks : Nat
  /-- Every call made so far. -/
  log : List Effect

/-- What can happen to a node. -/
inductive Event
  | trigger (e : Env)
  | timer_send_fire (id : opentimer_id_t)
  | send_task (e : Env)
  | receive_data (e : Env) (pkt : OpenQueueEntry_t)
  | receive_beacon (e : Env) (pkt : OpenQueueEntry_t)
  | timer_fwd_fire (e : Env)

/-- Record the outcome of a handler: the new `light_vars`, and the timers and
tasks its calls create or remove. -/
def Node.after (n : Node) (r : light_vars_t × List Effect) : Node :=
  { vars := r.1
    fwd_timers := n.fwd_timers + r.2.countP (Effect.starts timer_cb_t.light_timer_fwd_cb)
    send_timers := n.send_timers + r.2.countP (Effect.starts timer_cb_t.light_timer_send_cb)
                     - r.2.countP Effect.is_stop
    tasks := n.tasks + r.2.countP Effect.is_push
    log := n.log ++ r.2 }

/-- The node after `light_init`. -/
def Node.init (c : Config) (e : Env) : Node :=
  Node.after { vars := light_vars_zero, fwd_timers := 0, send_timers := 0, tasks := 0, log := [] }
    (light_init c e)

/-- One event.  A timer fires only if it is running, a task runs only if it
was pushed; a one-shot timer fires once. -/
def Node.step (c : Config) (n : Node) : Event → Node
  | .trigger e => n.after (light_trigger c e n.vars)
  | .timer_send_fire id =>
    if n.send_timers = 0 then n else n.after (light_timer_send_cb c id n.vars)
  | .send_task e =>
    if n.tasks = 0 then n
    else Node.after { n with tasks := n.tasks - 1 } (light_send_task_cb c e n.vars)
  | .receive_data e pkt => n.after (light_receive_data c e pkt n.vars)
  | .receive_beacon e pkt => n.after (light_receive_beacon c e pkt n.vars)
  | .timer_fwd_fire e =>
    if n.fwd_timers = 0 then n
    else Node.after { n with fwd_timers := n.fwd_timers - 1 } (light_timer_fwd_cb e n.vars)

/-- A sequence of events. -/
def Node.run (c : Config) (n : Node) (evs : List Event) : Node :=
  evs.foldl (Node.step c) n

/-- A received record or beacon, with the collaborators' answers at its
arrival. -/
inductive Received
  | data (e : Env) (pkt : OpenQueueEntry_t)
  | beacon (e : Env) (pkt : OpenQueueEntry_t)

/-- Dispatch of one received input to its handler. -/
def light_receive (c : Config) (v : light_vars_t) : Received → light_vars_t
  | .data e pkt => (light_receive_data c e pkt v).1
  | .beacon e pkt => (light_receive_beacon c e pkt v).1

/-! ## Invariants of the event system -/

/-- What a handler may do to the forwarding session: leave it alone and start
no forward timer, or open it (from idle) with exactly one forward timer. -/
def FwdStep (v : light_vars_t) (r : light_vars_t × List Effect) : Prop :=
  (r.1.busyForwarding = v.busyForwarding ∧ r.1.pktToForward = v.pktToForward ∧
    r.2.countP (Effect.starts timer_cb_t.light_timer_fwd_cb) = 0) ∨
  (v.busyForwarding = false ∧ r.1.busyForwarding = true ∧ r.1.pktToForward.isSome = true ∧
    r.2.countP (Effect.starts timer_cb_t.light_timer_fwd_cb) = 1)

/-- The forwarding session is consistent with the timer service: as many
pending forward timers as `busyForwarding` says, and a stored packet exactly
when busy. -/
def FwdInv (n : Node) : Prop :=
  n.fwd_timers = (if n.vars.busyForwarding then 1 else 0) ∧
  n.vars.pktToForward.isSome = n.vars.busyForwarding

/-- A node with `light_vars = v` on whose behalf no timer runs and no task
waits. -/
def Node.idle (v : light_vars_t) : Node :=
  { vars := v, fwd_timers := 0, send_timers := 0, tasks := 0, log := [] }

/-- The event belongs to a burst with timer `id`: a fire of that timer, or a
send task that finds a free buffer. -/
def Event.in_burst (id : opentimer_id_t) : Event → Bool
  | .timer_send_fire id1 => id1 == id
  | .send_task e => e.freeBuffer.isSome
  | _ => false

/-- The event is a fire of the periodic burst timer. -/
def Event.is_fire : Event → Bool
  | .timer_send_fire _ => true
  | _ => false

/-- Burst-timer fires still to come before the timer is stopped. -/
def Node.fires_left (c : Config) (n : Node) : Nat :=
  (c.LIGHT_BURSTSIZE - n.vars.numBurstPktsSent) + n.send_timers

/-- The state of a burst with timer `id` whose packets are to carry `hdr`:
the counter equals the number of tasks pushed, every task pushed was run or
waits, the timer runs and was never stopped or it was stopped once after the
last push, and every packet sent starts with the bytes of `hdr`. -/
structure BurstInv (c : Config) (id : opentimer_id_t) (hdr : light_ht) (n : Node) : Prop where
  header : light_header c n.vars = hdr
  le : n.vars.numBurstPktsSent ≤ c.LIGHT_BURSTSIZE
  pushes : n.log.countP Effect.is_push = n.vars.numBurstPktsSent
  sends : n.log.countP Effect.is_send + n.tasks = n.log.countP Effect.is_push
  timer : (n.send_timers = 1 ∧ n.log.countP Effect.is_stop = 0) ∨
    (n.send_timers = 0 ∧ n.vars.numBurstPktsSent = c.LIGHT_BURSTSIZE ∧
      ∃ l1 l2, n.log = l1 ++ Effect.opentimers_stop id :: l2 ∧
        l1.countP Effect.is_stop = 0 ∧ l2.countP Effect.is_stop = 0 ∧
        l2.countP Effect.is_push = 0)
  pkts : ∀ p, Effect.sixtop_send p ∈ n.log →
    ∃ q rest, p = some q ∧ q.payload = light_ht_bytes hdr ++ rest

/-- The node after a trigger on an otherwise idle node, followed by the events
`evs`. -/
def burst_run (c : Config) (e : Env) (v : light_vars_t) (evs : List Event) : Node :=
  ((Node.idle v).step c (Event.trigger e)).run c evs

/-! ## Concrete nodes, packets and states used in the examples -/

/-- A node whose 64-bit address ends in the two bytes of `id`; the sensor is
node 1 and the sink node 2. -/
def cfg_node (id : Nat) (wide : Bool) : Config :=
  { int_wide := wide, LUX_THRESHOLD := 500, LUX_HYSTERESIS := 100, LIGHT_BURSTSIZE := 3,
    LIGHT_SEND_PERIOD_MS := 100, LIGHT_FAKESEND_PERIOD := 200, SENSOR_ID := 1, SINK_ID := 2,
    LIGHT_FAKESEND := false, LIGHT_DEBUG := false, LIGHT_CALCULATE_DELAY := false,
    LIGHT_PRINTOUT_READING := false,
    addr_64b := [0x14, 0x15, 0x92, 0xcc, 0x00, 0x00, id / 256 % 256, id % 256],
    myShortID := id }

def cfg_source : Config := cfg_node 1 true

def cfg_sink : Config := cfg_node 2 true

def cfg_relay : Config := cfg_node 3 true

/-- A free buffer as handed out by the queue. -/
def empty_buffer : OpenQueueEntry_t :=
  { owner := component_t.COMPONENT_LIGHT, creator := component_t.COMPONENT_NULL, payload := [],
    l2_floodingCounter := 0, l2_floodingState := false, l2_rank := 0 }

/-- A synchronized environment with a free buffer; the sensor reads `lux`. -/
def env_lux (lux : Nat) : Env :=
  { isSynch := true, sensor_present := true, sensor_value := lux, asnDiff := 0, asn := 77,
    freeBuffer := some empty_buffer, random16 := 0xabcd, myDAGrank := 768, send_fails := false,
    timerId := 4 }

def env_ok : Env := env_lux 0

/-- Four fires of burst timer 4, the pushed task running after each of the
first three. -/
def burst_events : List Event :=
  [Event.timer_send_fire 4, Event.send_task env_ok, Event.timer_send_fire 4,
   Event.send_task env_ok, Event.timer_send_fire 4, Event.send_task env_ok,
   Event.timer_send_fire 4]

/-- A relay that, busy forwarding record 6, receives record 7 before its
forward timer fires. -/
def relay_overtaken : Node :=
  (Node.init cfg_relay env_ok).run cfg_relay
    [Event.receive_data env_ok
       { owner := component_t.COMPONENT_OTHER, creator := component_t.COMPONENT_OTHER,
         payload := [6, 0, 1], l2_floodingCounter := 0, l2_floodingState := false, l2_rank := 0 },
     Event.receive_data env_ok
       { owner := component_t.COMPONENT_OTHER, creator := component_t.COMPONENT_OTHER,
         payload := [7, 0, 0], l2_floodingCounter := 0, l2_floodingState := false, l2_rank := 0 },
     Event.timer_fwd_fire env_ok]

/-- A received data record whose first three payload bytes carry `seq` and
`state`. -/
def data_record (seq : Nat) (state : Bool) : OpenQueueEntry_t :=
  { owner := component_t.COMPONENT_OTHER, creator := component_t.COMPONENT_OTHER,
    payload := [seq % 256, seq / 256 % 256, if state then 1 else 0],
    l2_floodingCounter := 0, l2_floodingState := false, l2_rank := 0 }

/-- A received beacon carrying `counter`, `state` and the sender's `rank`. -/
def beacon (counter : Int) (state : Bool) (rank : Nat) : OpenQueueEntry_t :=
  { owner := component_t.COMPONENT_OTHER, creator := component_t.COMPONENT_OTHER,
    payload := [], l2_floodingCounter := counter, l2_floodingState := state, l2_rank := rank }

/-- An idle `light_vars` at sequence number `seq` and state `state`. -/
def vars_at (seq : Nat) (state : Bool) : light_vars_t :=
  { light_vars_zero with seqnum := seq, light_state := state }

/-- As `env_ok`, on a node that is not synchronized. -/
def env_unsynced : Env := { env_ok with isSynch := false }

/-- As `env_ok`, when the queue has no free buffer. -/
def env_no_buffer : Env := { env_ok with freeBuffer := none }

end Light

namespace Light

/-! ## Machine-integer facts -/

theorem toU16_lt (x : Int) : toU16 x < 65536 := by
  unfold toU16; omega

theorem toU16_of_range (x : Int) (h0 : 0 ≤ x) (h1 : x < 65536) : (toU16 x : Int) = x := by
  unfold toU16; omega

theorem toI16_range (x : Int) : -32768 ≤ toI16 x ∧ toI16 x < 32768 := by
  unfold toI16; omega

theorem light_decode_lt (payload : List Nat) : (light_decode payload).1 < 65536 := by
  unfold light_decode
  exact Nat.mod_lt _ (by norm_num)

/-! ## Sequence numbers never go back on reception -/

theorem light_schedule_fwd_seqnum (c : Config) (e : Env) (v : light_vars_t) (tag : Nat)
    (info : errcode_t) (a1 a2 : Nat) :
    (light_schedule_fwd c e v tag info a1 a2).1.seqnum = v.seqnum ∧
    (light_schedule_fwd c e v tag info a1 a2).1.light_state = v.light_state := by
  unfold light_schedule_fwd
  cases e.freeBuffer <;> simp

theorem light_receive_data_seqnum_le (c : Config) (e : Env) (pkt : OpenQueueEntry_t)
    (v : light_vars_t) : v.seqnum ≤ (light_receive_data c e pkt v).1.seqnum := by
  unfold light_receive_data
  simp only []
  split
  · exact le_refl _
  · split
    · exact le_refl _
    · rename_i hlt
      split
      · simp only []; omega
      · split
        · simp only []; omega
        · rw [(light_schedule_fwd_seqnum _ _ _ _ _ _ _).1]; simp only []; omega

theorem light_receive_beacon_seqnum_le (c : Config) (e : Env) (pkt : OpenQueueEntry_t)
    (v : light_vars_t) : v.seqnum ≤ (light_receive_beacon c e pkt v).1.seqnum := by
  unfold light_receive_beacon
  simp only []
  split
  · exact le_refl _
  · split
    · rename_i hrec
      have hge : v.seqnum ≤ toU16 (toI16 pkt.l2_floodingCounter) := by
        unfold beacon_is_recent at hrec
        have hr := toI16_range pkt.l2_floodingCounter
        by_cases hw : c.int_wide = true
        · simp only [hw, if_true, decide_eq_true_eq] at hrec
          have := toU16_of_range (toI16 pkt.l2_floodingCounter) (by omega) (by omega)
          omega
        · simp only [hw, decide_eq_true_eq] at hrec
          simpa using hrec
      split
      · split
        · split <;> simpa using hge
        · split <;> simpa using hge
      · simpa using hge
    · split
      · exact le_refl _
      · rw [(light_schedule_fwd_seqnum _ _ _ _ _ _ _).1]

theorem light_receive_seqnum_le (c : Config) (v : light_vars_t) (r : Received) :
    v.seqnum ≤ (light_receive c v r).seqnum := by
  cases r with
  | data e pkt => exact light_receive_data_seqnum_le c e pkt v
  | beacon e pkt => exact light_receive_beacon_seqnum_le c e pkt v

theorem foldl_light_receive_seqnum_le (c : Config) (rs : List Received) (v : light_vars_t) :
    v.seqnum ≤ (rs.foldl (light_receive c) v).seqnum := by
  induction rs generalizing v with
  | nil => exact le_refl _
  | cons r rs ih =>
    exact le_trans (light_receive_seqnum_le c v r) (ih (light_receive c v r))

/-- C1: `light_receive_data` and `light_receive_beacon` never decrease
`light_vars.seqnum`, for every state, packet, environment and width of `int`
(the beacon path included); hence along every finite sequence of
received records and beacons the sequence number after any prefix is at most
the sequence number after the whole sequence. -/
theorem C1_seqnum_monotone (c : Config) (e : Env) (pkt : OpenQueueEntry_t) (v : light_vars_t)
    (before after : List Received) :
    v.seqnum ≤ (light_receive_data c e pkt v).1.seqnum ∧
    v.seqnum ≤ (light_receive_beacon c e pkt v).1.seqnum ∧
    (before.foldl (light_receive c) v).seqnum ≤
      ((before ++ after).foldl (light_receive c) v).seqnum := by
  refine ⟨light_receive_data_seqnum_le c e pkt v, light_receive_beacon_seqnum_le c e pkt v, ?_⟩
  rw [List.foldl_append]
  exact foldl_light_receive_seqnum_le c after _

/-! ## Stale records -/

/-- C2: on a synchronized node a data record whose decoded sequence number is
at most `light_vars.seqnum` leaves `light_vars` as it is (so `seqnum`,
`light_state`, `busyForwarding` and `pktToForward` are unchanged), and none of
the calls made belongs to the sink processor, allocates a buffer, starts a
timer or sends. -/
theorem C2_stale_record_ignored (c : Config) (e : Env) (pkt : OpenQueueEntry_t)
    (v : light_vars_t) (hsync : e.isSynch = true)
    (hstale : (light_decode pkt.payload).1 ≤ v.seqnum) :
    (light_receive_data c e pkt v).1 = v ∧
    ∀ x ∈ (light_receive_data c e pkt v).2,
      x.at_sink = false ∧ x.is_alloc = false ∧ x.is_send = false ∧
      x.starts timer_cb_t.light_timer_fwd_cb = false ∧
      x.starts timer_cb_t.light_timer_send_cb = false := by
  unfold light_receive_data
  simp only [hsync, hstale, if_true]
  refine ⟨by simp, ?_⟩
  intro x hx
  cases hd : c.LIGHT_DEBUG <;> simp [hd] at hx
  · subst hx; simp [Effect.at_sink, Effect.is_alloc, Effect.is_send, Effect.starts]
  · rcases hx with hx | hx | hx <;> subst hx <;>
      simp [Effect.at_sink, Effect.is_alloc, Effect.is_send, Effect.starts]

theorem C2_stale_record_ignored_witness :
    env_ok.isSynch = true ∧ (light_decode (data_record 4 true).payload).1 ≤ (vars_at 6 false).seqnum ∧
    (light_receive_data cfg_relay env_ok (data_record 4 true) (vars_at 6 false)).1 = vars_at 6 false :=
  ⟨by decide, by decide,
   (C2_stale_record_ignored cfg_relay env_ok (data_record 4 true) (vars_at 6 false)
      (by decide) (by decide)).1⟩

/-! ## At most one pending forward -/

theorem light_schedule_fwd_FwdStep (c : Config) (e : Env) (v : light_vars_t) (tag : Nat)
    (info : errcode_t) (a1 a2 : Nat) (hidle : v.busyForwarding = false) :
    FwdStep v (light_schedule_fwd c e v tag info a1 a2) := by
  unfold light_schedule_fwd FwdStep
  cases e.freeBuffer with
  | none => left; simp [Effect.starts]
  | some buf => right; cases c.LIGHT_DEBUG <;> simp [Effect.starts, hidle]

theorem light_trigger_FwdStep (c : Config) (e : Env) (v : light_vars_t) :
    FwdStep v (light_trigger c e v) := by
  unfold light_trigger FwdStep light_start_burst
  left
  simp only []
  split
  · simp
  · split
    · simp [Effect.starts]
    · split <;> simp [Effect.starts]

theorem light_timer_send_cb_FwdStep (c : Config) (id : opentimer_id_t) (v : light_vars_t) :
    FwdStep v (light_timer_send_cb c id v) := by
  unfold light_timer_send_cb FwdStep
  left
  split <;> simp [Effect.starts]

theorem light_send_task_cb_FwdStep (c : Config) (e : Env) (v : light_vars_t) :
    FwdStep v (light_send_task_cb c e v) := by
  unfold light_send_task_cb FwdStep
  left
  cases e.freeBuffer with
  | none => simp [Effect.starts]
  | some buf => cases c.LIGHT_DEBUG <;> cases e.send_fails <;> simp [Effect.starts]

theorem light_process_packet_at_sink_no_start (c : Config) (v : light_vars_t) (cb : timer_cb_t) :
    (light_process_packet_at_sink c v).countP (Effect.starts cb) = 0 := by
  unfold light_process_packet_at_sink
  cases c.LIGHT_CALCULATE_DELAY <;> cases v.light_state <;> simp [Effect.starts]

theorem light_receive_data_FwdStep (c : Config) (e : Env) (pkt : OpenQueueEntry_t)
    (v : light_vars_t) : FwdStep v (light_receive_data c e pkt v) := by
  unfold light_receive_data
  simp only []
  split
  · left; simp [Effect.starts]
  · split
    · left; cases c.LIGHT_DEBUG <;> simp [Effect.starts]
    · split
      · left
        refine ⟨rfl, rfl, ?_⟩
        simp only [List.countP_append, light_process_packet_at_sink_no_start]
        cases c.LIGHT_DEBUG <;> simp [Effect.starts]
      · split
        · left; cases c.LIGHT_DEBUG <;> simp [Effect.starts]
        · rename_i hb
          have hidle : v.busyForwarding = false := by simpa using hb
          have h := light_schedule_fwd_FwdStep c e
            { v with seqnum := (light_decode pkt.payload).1,
                     light_state := (light_decode pkt.payload).2 } 1 errcode_t.ERR_FLOOD_FW
            (light_decode pkt.payload).1 (boolParam (light_decode pkt.payload).2) hidle
          unfold FwdStep at h ⊢
          simp only [List.countP_append] at h ⊢
          have h0 : List.countP (Effect.starts timer_cb_t.light_timer_fwd_cb)
              ((if c.LIGHT_DEBUG = true then
                  [Effect.openserial_printInfo errcode_t.ERR_FLOOD_RCV
                    (light_decode pkt.payload).1 (boolParam (light_decode pkt.payload).2)]
                else []) ++
               [Effect.openqueue_freePacketBuffer
                  (some { pkt with owner := component_t.COMPONENT_LIGHT })]) = 0 := by
            cases c.LIGHT_DEBUG <;> simp [Effect.starts]
          simp only [List.countP_append] at h0
          rcases h with h | h
          · left; exact ⟨h.1, h.2.1, by omega⟩
          · right; exact ⟨h.1, h.2.1, h.2.2.1, by omega⟩

theorem light_receive_beacon_FwdStep (c : Config) (e : Env) (pkt : OpenQueueEntry_t)
    (v : light_vars_t) : FwdStep v (light_receive_beacon c e pkt v) := by
  unfold light_receive_beacon
  simp only []
  split
  · left; simp
  · split
    · left
      split
      · split
        · refine ⟨?_, ?_, light_process_packet_at_sink_no_start _ _ _⟩ <;> split <;> rfl
        · refine ⟨?_, ?_, by simp⟩ <;> split <;> rfl
      · simp
    · split
      · left; simp
      · rename_i hb
        have hidle : v.busyForwarding = false := by
          cases hv : v.busyForwarding
          · rfl
          · simp [hv] at hb
        exact light_schedule_fwd_FwdStep c e v _ _ _ _ hidle

theorem FwdInv_after (n : Node) (r : light_vars_t × List Effect) (hinv : FwdInv n)
    (hstep : FwdStep n.vars r) : FwdInv (n.after r) := by
  unfold FwdInv Node.after at *
  obtain ⟨h1, h2⟩ := hinv
  rcases hstep with ⟨ha, hb, hc⟩ | ⟨ha, hb, hc, hd⟩
  · simp only [ha, hb, hc]
    exact ⟨by simpa using h1, h2⟩
  · simp only [ha] at h1
    simp only [hb, hc, hd]
    simp at h1
    simp [h1]

theorem FwdInv_init (c : Config) (e : Env) : FwdInv (Node.init c e) := by
  unfold FwdInv Node.init Node.after light_init
  cases c.LIGHT_PRINTOUT_READING && light_checkMyId c c.SENSOR_ID && e.sensor_present <;>
    simp [light_vars_zero, Effect.starts]

theorem FwdInv_step (c : Config) (n : Node) (ev : Event) (hinv : FwdInv n) :
    FwdInv (n.step c ev) := by
  cases ev with
  | trigger e => exact FwdInv_after n _ hinv (light_trigger_FwdStep c e n.vars)
  | timer_send_fire id =>
    simp only [Node.step]
    split
    · exact hinv
    · exact FwdInv_after n _ hinv (light_timer_send_cb_FwdStep c id n.vars)
  | send_task e =>
    simp only [Node.step]
    split
    · exact hinv
    · exact FwdInv_after { n with tasks := n.tasks - 1 } _ hinv
        (light_send_task_cb_FwdStep c e n.vars)
  | receive_data e pkt => exact FwdInv_after n _ hinv (light_receive_data_FwdStep c e pkt n.vars)
  | receive_beacon e pkt =>
    exact FwdInv_after n _ hinv (light_receive_beacon_FwdStep c e pkt n.vars)
  | timer_fwd_fire e =>
    simp only [Node.step]
    split
    · exact hinv
    · rename_i hpos
      unfold FwdInv Node.after light_timer_fwd_cb at *
      obtain ⟨h1, _⟩ := hinv
      cases hb : n.vars.busyForwarding
      · simp [hb] at h1; omega
      · simp only [hb, if_true] at h1
        cases e.send_fails <;> simp [Effect.starts, h1]

theorem FwdInv_run (c : Config) (evs : List Event) (n : Node) (hinv : FwdInv n) :
    FwdInv (n.run c evs) := by
  induction evs generalizing n with
  | nil => exact hinv
  | cons ev evs ih => exact ih (n.step c ev) (FwdInv_step c n ev hinv)

/-- C3: in every state reached from `light_init` by any sequence of triggers,
burst-timer fires, send tasks, received records, received beacons and
forward-timer fires, at most one forward timer is pending, `busyForwarding` is
TRUE exactly when one is pending, and exactly then `pktToForward` holds a
buffer. -/
theorem C3_single_forward_session (c : Config) (e : Env) (evs : List Event) :
    ((Node.init c e).run c evs).fwd_timers ≤ 1 ∧
    (((Node.init c e).run c evs).vars.busyForwarding = true ↔
      ((Node.init c e).run c evs).fwd_timers = 1) ∧
    (((Node.init c e).run c evs).vars.busyForwarding = true ↔
      ((Node.init c e).run c evs).vars.pktToForward.isSome = true) := by
  have h := FwdInv_run c evs (Node.init c e) (FwdInv_init c e)
  obtain ⟨h1, h2⟩ := h
  cases hb : ((Node.init c e).run c evs).vars.busyForwarding <;> simp [hb] at h1 h2 <;>
    simp [h1, h2]

/-! ## The state monitor -/

theorem light_trigger_source (c : Config) (e : Env) (v : light_vars_t)
    (hsrc : light_checkMyId c c.SENSOR_ID = true) (hsens : e.sensor_present = true) :
    light_trigger c e v =
      if light_rising c v.light_state (light_read c e v) then
        light_start_burst c e { v with light_reading := light_read c e v } true
      else if light_falling c v.light_state (light_read c e v) then
        light_start_burst c e { v with light_reading := light_read c e v } false
      else ({ v with light_reading := light_read c e v }, []) := by
  unfold light_trigger
  simp [hsrc, hsens]

/-- C4: on the Source with a light sensor, `light_trigger` changes
`light_state` only from FALSE to TRUE at a reading `>= LUX_THRESHOLD +
LUX_HYSTERESIS` or from TRUE to FALSE at a reading `< LUX_THRESHOLD -
LUX_HYSTERESIS`, and in these two cases it does change; for a reading in the
band between the two bounds and either prior state, `light_state`, `seqnum`
and `numBurstPktsSent` are unchanged and nothing is called (no burst timer is
started).  On a target with a 16-bit
`int` the two bounds are taken to be representable in that type (between 0 and
32767); with a wider `int` nothing is assumed about the two macros. -/
theorem C4_hysteresis (c : Config) (e : Env) (v : light_vars_t)
    (hsrc : light_checkMyId c c.SENSOR_ID = true) (hsens : e.sensor_present = true)
    (hconst : c.int_wide = true ∨
      (c.LUX_HYSTERESIS ≤ c.LUX_THRESHOLD ∧ c.LUX_THRESHOLD + c.LUX_HYSTERESIS < 32768)) :
    ((light_trigger c e v).1.light_state ≠ v.light_state →
      (v.light_state = false ∧ (light_trigger c e v).1.light_state = true ∧
        (c.LUX_THRESHOLD : Int) + c.LUX_HYSTERESIS ≤ light_read c e v) ∨
      (v.light_state = true ∧ (light_trigger c e v).1.light_state = false ∧
        (light_read c e v : Int) < (c.LUX_THRESHOLD : Int) - c.LUX_HYSTERESIS)) ∧
    ((c.LUX_THRESHOLD : Int) - c.LUX_HYSTERESIS ≤ light_read c e v →
      (light_read c e v : Int) < (c.LUX_THRESHOLD : Int) + c.LUX_HYSTERESIS →
      (light_trigger c e v).1.light_state = v.light_state ∧
      (light_trigger c e v).1.seqnum = v.seqnum ∧
      (light_trigger c e v).1.numBurstPktsSent = v.numBurstPktsSent ∧
      (light_trigger c e v).2 = []) ∧
    (v.light_state = false →
      (c.LUX_THRESHOLD : Int) + c.LUX_HYSTERESIS ≤ light_read c e v →
      (light_trigger c e v).1.light_state = true) ∧
    (v.light_state = true →
      (light_read c e v : Int) < (c.LUX_THRESHOLD : Int) - c.LUX_HYSTERESIS →
      (light_trigger c e v).1.light_state = false) := by
  have hop : ∀ k : Int, k = (c.LUX_THRESHOLD : Int) + c.LUX_HYSTERESIS ∨
      k = (c.LUX_THRESHOLD : Int) - c.LUX_HYSTERESIS → intOperand c k = k := by
    intro k hk
    unfold intOperand
    rcases hconst with hw | ⟨h1, h2⟩
    · simp [hw]
    · split
      · rfl
      · apply toU16_of_range <;> omega
  rw [light_trigger_source c e v hsrc hsens]
  unfold light_rising light_falling light_start_burst
  rw [hop _ (Or.inl rfl), hop _ (Or.inr rfl)]
  generalize light_read c e v = r
  cases hst : v.light_state
  · by_cases hr : (c.LUX_THRESHOLD : Int) + c.LUX_HYSTERESIS ≤ r
    · simp [hr]
    · simp [hr]
  · by_cases hr : (r : Int) < (c.LUX_THRESHOLD : Int) - c.LUX_HYSTERESIS
    · simp [hr]
      omega
    · simp [hr]

theorem C4_hysteresis_witness :
    (light_trigger cfg_source (env_lux 550) (vars_at 5 true)).1.light_state = true ∧
    (light_trigger cfg_source (env_lux 550) (vars_at 5 true)).1.seqnum = 5 ∧
    (light_trigger cfg_source (env_lux 550) (vars_at 5 true)).2 = [] :=
  have h := (C4_hysteresis cfg_source (env_lux 550) (vars_at 5 true) (by decide) (by decide)
    (Or.inl (by decide))).2.1 (by decide) (by decide)
  ⟨h.1, h.2.1, h.2.2.2⟩

/-- C5 (as stated, refuted): the Source at sequence number 65535 with state
FALSE detects a switch at a lit reading; afterwards the sequence number is 0,
which is neither the previous value plus one nor an increase. -/
theorem C5_seqnum_wraps_at_65535 :
    light_checkMyId cfg_source cfg_source.SENSOR_ID = true ∧
    light_rising cfg_source (vars_at 65535 false).light_state
      (light_read cfg_source (env_lux 700) (vars_at 65535 false)) = true ∧
    (light_trigger cfg_source (env_lux 700) (vars_at 65535 false)).1.light_state = true ∧
    (light_trigger cfg_source (env_lux 700) (vars_at 65535 false)).1.seqnum = 0 ∧
    (light_trigger cfg_source (env_lux 700) (vars_at 65535 false)).1.seqnum ≠
      (vars_at 65535 false).seqnum + 1 ∧
    (light_trigger cfg_source (env_lux 700) (vars_at 65535 false)).1.seqnum <
      (vars_at 65535 false).seqnum := by
  decide

/-- C5 (amended): when `light_trigger` on the Source detects a switch,
afterwards `light_state` is the negation of its previous value, `seqnum` is
the previous value plus one modulo 2^16 (hence the previous value plus one,
and larger, whenever the previous value is below 65535), `numBurstPktsSent` is
0 and exactly one timer has been started, the periodic burst timer. -/
theorem C5_transition_effects (c : Config) (e : Env) (v : light_vars_t)
    (hsrc : light_checkMyId c c.SENSOR_ID = true) (hsens : e.sensor_present = true)
    (hdet : light_rising c v.light_state (light_read c e v) = true ∨
      light_falling c v.light_state (light_read c e v) = true) :
    (light_trigger c e v).1.light_state = !v.light_state ∧
    (light_trigger c e v).1.seqnum = (v.seqnum + 1) % 65536 ∧
    (v.seqnum < 65535 → (light_trigger c e v).1.seqnum = v.seqnum + 1 ∧
      v.seqnum < (light_trigger c e v).1.seqnum) ∧
    (light_trigger c e v).1.numBurstPktsSent = 0 ∧
    Effect.opentimers_start c.LIGHT_SEND_PERIOD_MS timer_type_t.TIMER_PERIODIC
      timer_cb_t.light_timer_send_cb ∈ (light_trigger c e v).2 ∧
    (light_trigger c e v).2.countP (Effect.starts timer_cb_t.light_timer_send_cb) = 1 ∧
    (light_trigger c e v).2.countP (Effect.starts timer_cb_t.light_timer_fwd_cb) = 0 := by
  rw [light_trigger_source c e v hsrc hsens]
  have hmod : v.seqnum < 65535 → (v.seqnum + 1) % 65536 = v.seqnum + 1 ∧
      v.seqnum < (v.seqnum + 1) % 65536 := by
    intro h
    rw [Nat.mod_eq_of_lt (by omega)]
    exact ⟨rfl, by omega⟩
  by_cases hr : light_rising c v.light_state (light_read c e v) = true
  · have hs : v.light_state = false := by
      unfold light_rising at hr
      simp at hr
      exact hr.1
    simp only [hr, if_true]
    cases hb : v.light_state
    · simp [light_start_burst, Effect.starts, hb]
      intro h
      have := hmod h
      omega
    · simp [hs] at hb
  · have hf : light_falling c v.light_state (light_read c e v) = true := by
      rcases hdet with h | h
      · exact absurd h hr
      · exact h
    have hs : v.light_state = true := by
      unfold light_falling at hf
      simp at hf
      exact hf.1
    simp only [hr, hf, if_true]
    simp [light_start_burst, Effect.starts, hs]
    intro h
    have := hmod h
    omega

theorem C5_transition_effects_witness :
    (light_trigger cfg_source (env_lux 700) (vars_at 5 false)).1.light_state = true ∧
    (light_trigger cfg_source (env_lux 700) (vars_at 5 false)).1.seqnum = 6 :=
  have h := C5_transition_effects cfg_source (env_lux 700) (vars_at 5 false) (by decide)
    (by decide) (Or.inl (by decide))
  ⟨h.1, (h.2.2.1 (by decide)).1⟩

/-! ## The burst -/

theorem light_send_task_cb_some (c : Config) (e : Env) (v : light_vars_t)
    (buf : OpenQueueEntry_t) (hbuf : e.freeBuffer = some buf) :
    (light_send_task_cb c e v).1 = v ∧
    (light_send_task_cb c e v).2.countP Effect.is_push = 0 ∧
    (light_send_task_cb c e v).2.countP Effect.is_stop = 0 ∧
    (light_send_task_cb c e v).2.countP Effect.is_send = 1 ∧
    (∀ cb, (light_send_task_cb c e v).2.countP (Effect.starts cb) = 0) ∧
    ∀ p, Effect.sixtop_send p ∈ (light_send_task_cb c e v).2 →
      p = some (light_format_packet c v buf) := by
  unfold light_send_task_cb
  rw [hbuf]
  cases c.LIGHT_DEBUG <;> cases e.send_fails <;>
    simp [Effect.is_push, Effect.is_stop, Effect.is_send, Effect.starts]

theorem BurstInv_step (c : Config) (id : opentimer_id_t) (hdr : light_ht) (n : Node)
    (ev : Event) (hsize : c.LIGHT_BURSTSIZE ≤ 255) (hinv : BurstInv c id hdr n)
    (hev : ev.in_burst id = true) :
    BurstInv c id hdr (n.step c ev) ∧
    (n.step c ev).fires_left c = n.fires_left c - (if ev.is_fire then 1 else 0) := by
  obtain ⟨hh, hle, hpu, hse, hti, hpk⟩ := hinv
  cases ev with
  | trigger e => simp [Event.in_burst] at hev
  | receive_data e pkt => simp [Event.in_burst] at hev
  | receive_beacon e pkt => simp [Event.in_burst] at hev
  | timer_fwd_fire e => simp [Event.in_burst] at hev
  | timer_send_fire id1 =>
    have hid : id1 = id := by simpa [Event.in_burst] using hev
    subst hid
    simp only [Node.step, Event.is_fire, if_true]
    by_cases h0 : n.send_timers = 0
    · simp only [h0, if_true]
      refine ⟨⟨hh, hle, hpu, hse, hti, hpk⟩, ?_⟩
      rcases hti with ⟨h1, _⟩ | ⟨_, h2, _⟩
      · omega
      · unfold Node.fires_left; omega
    · simp only [h0, if_false]
      rcases hti with ⟨h1, hst⟩ | ⟨h1, _⟩
      · by_cases hlt : n.vars.numBurstPktsSent < c.LIGHT_BURSTSIZE
        · have hmod : (n.vars.numBurstPktsSent + 1) % 256 = n.vars.numBurstPktsSent + 1 :=
            Nat.mod_eq_of_lt (by omega)
          simp only [light_timer_send_cb, hlt, if_true, Node.after, Node.fires_left, hmod]
          refine ⟨⟨?_, ?_, ?_, ?_, ?_, ?_⟩, ?_⟩
          · exact hh
          · show n.vars.numBurstPktsSent + 1 ≤ c.LIGHT_BURSTSIZE
            omega
          · simp [Effect.is_push, hpu]
          · simp [Effect.is_push, Effect.is_send]
            omega
          · left
            simp [Effect.is_stop, Effect.starts, hst, h1]
          · intro p hp
            simp at hp
            exact hpk p hp
          · simp [Effect.is_stop, Effect.starts, h1]
            omega
        · have heq : n.vars.numBurstPktsSent = c.LIGHT_BURSTSIZE := by omega
          simp only [light_timer_send_cb, hlt, if_false, Node.after, Node.fires_left]
          refine ⟨⟨hh, hle, ?_, ?_, ?_, ?_⟩, ?_⟩
          · simp [Effect.is_push, hpu]
          · simp [Effect.is_push, Effect.is_send]
            omega
          · right
            refine ⟨by simp [Effect.is_stop, Effect.starts, h1], heq, n.log, [], by simp, hst,
              by simp, by simp⟩
          · intro p hp
            simp at hp
            exact hpk p hp
          · simp [Effect.is_stop, Effect.starts, h1, heq]
      · exact absurd h1 h0
  | send_task e =>
    simp only [Node.step, Event.is_fire]
    by_cases h0 : n.tasks = 0
    · simp only [h0, if_true]
      exact ⟨⟨hh, hle, hpu, hse, hti, hpk⟩, by simp⟩
    · simp only [h0, if_false]
      have hsome : e.freeBuffer.isSome = true := by simpa [Event.in_burst] using hev
      obtain ⟨buf, hbuf⟩ := Option.isSome_iff_exists.mp hsome
      obtain ⟨t1, t2, t3, t4, t5, t6⟩ := light_send_task_cb_some c e n.vars buf hbuf
      have t7 := t5 timer_cb_t.light_timer_send_cb
      simp only [Node.after, Node.fires_left, t1]
      refine ⟨⟨hh, hle, ?_, ?_, ?_, ?_⟩, ?_⟩
      · show List.countP Effect.is_push (n.log ++ (light_send_task_cb c e n.vars).2) = _
        rw [List.countP_append, t2, hpu]
        rfl
      · show List.countP Effect.is_send (n.log ++ (light_send_task_cb c e n.vars).2) +
            (n.tasks - 1 + List.countP Effect.is_push (light_send_task_cb c e n.vars).2) =
          List.countP Effect.is_push (n.log ++ (light_send_task_cb c e n.vars).2)
        rw [List.countP_append, List.countP_append, t2, t4]
        omega
      · rcases hti with ⟨h1, hst⟩ | ⟨h1, h2, l1, l2, hl, hs1, hs2, hp2⟩
        · left
          refine ⟨?_, ?_⟩
          · show n.send_timers + _ - _ = 1
            rw [t7, t3]
            omega
          · show List.countP Effect.is_stop (n.log ++ (light_send_task_cb c e n.vars).2) = 0
            rw [List.countP_append, t3, hst]
        · right
          refine ⟨?_, h2, l1, l2 ++ (light_send_task_cb c e n.vars).2, ?_, hs1, ?_, ?_⟩
          · show n.send_timers + _ - _ = 0
            rw [t7, t3]
            omega
          · show n.log ++ _ = _
            rw [hl]
            simp
          · rw [List.countP_append, hs2, t3]
          · rw [List.countP_append, hp2, t2]
      · intro p hp
        rcases List.mem_append.mp hp with hp | hp
        · exact hpk p hp
        · refine ⟨light_format_packet c n.vars buf, buf.payload, t6 p hp, ?_⟩
          simp [light_format_packet, hh]
      · show c.LIGHT_BURSTSIZE - n.vars.numBurstPktsSent + (n.send_timers + _ - _) = _
        rw [t7, t3]
        simp

theorem BurstInv_run (c : Config) (id : opentimer_id_t) (hdr : light_ht)
    (hsize : c.LIGHT_BURSTSIZE ≤ 255) (evs : List Event) (n : Node) (hinv : BurstInv c id hdr n)
    (hevs : ∀ ev ∈ evs, ev.in_burst id = true) :
    BurstInv c id hdr (n.run c evs) ∧
    (n.run c evs).fires_left c = n.fires_left c - evs.countP Event.is_fire := by
  induction evs generalizing n with
  | nil => exact ⟨hinv, by simp [Node.run]⟩
  | cons ev evs ih =>
    obtain ⟨h1, h2⟩ := BurstInv_step c id hdr n ev hsize hinv (hevs ev (List.mem_cons_self _ _))
    obtain ⟨h3, h4⟩ := ih (n.step c ev) h1 (fun x hx => hevs x (List.mem_cons_of_mem _ hx))
    refine ⟨h3, ?_⟩
    show ((n.step c ev).run c evs).fires_left c = _
    rw [h4, h2, List.countP_cons]
    split <;> omega

theorem light_trigger_detect (c : Config) (e : Env) (v : light_vars_t)
    (hsrc : light_checkMyId c c.SENSOR_ID = true) (hsens : e.sensor_present = true)
    (hdet : light_rising c v.light_state (light_read c e v) = true ∨
      light_falling c v.light_state (light_read c e v) = true) :
    light_trigger c e v =
      light_start_burst c e { v with light_reading := light_read c e v } (!v.light_state) := by
  rw [light_trigger_source c e v hsrc hsens]
  by_cases hr : light_rising c v.light_state (light_read c e v) = true
  · have hs : v.light_state = false := by
      unfold light_rising at hr
      simp at hr
      exact hr.1
    rw [if_pos hr]
    simp [hs]
  · have hf : light_falling c v.light_state (light_read c e v) = true := by
      rcases hdet with h | h
      · exact absurd h hr
      · exact h
    have hs : v.light_state = true := by
      unfold light_falling at hf
      simp at hf
      exact hf.1
    rw [if_neg hr, if_pos hf]
    simp [hs]

theorem BurstInv_start (c : Config) (e : Env) (v : light_vars_t)
    (hsrc : light_checkMyId c c.SENSOR_ID = true) (hsens : e.sensor_present = true)
    (hdet : light_rising c v.light_state (light_read c e v) = true ∨
      light_falling c v.light_state (light_read c e v) = true) :
    BurstInv c e.timerId
      { type := 0xdddd, src := c.myShortID % 65536, seqnum := (v.seqnum + 1) % 65536,
        light_state := !v.light_state }
      ((Node.idle v).step c (Event.trigger e)) ∧
    ((Node.idle v).step c (Event.trigger e)).fires_left c = c.LIGHT_BURSTSIZE + 1 := by
  simp only [Node.step, Node.idle, Node.after, Node.fires_left,
    light_trigger_detect c e v hsrc hsens hdet, light_start_burst]
  refine ⟨⟨?_, ?_, ?_, ?_, ?_, ?_⟩, ?_⟩
  · simp [light_header]
  · simp
  · cases v.light_state <;> simp [Effect.is_push]
  · cases v.light_state <;> simp [Effect.is_push, Effect.is_send]
  · left
    cases v.light_state <;> simp [Effect.is_stop, Effect.starts]
  · intro p hp
    cases hv : v.light_state <;> simp [hv] at hp
  · cases v.light_state <;> simp [Effect.is_stop, Effect.starts]

/-- C6: after a detected transition on the Source, let the burst timer fire
and the pushed send tasks run in any order, every task finding a free buffer.
If the timer is given at least `LIGHT_BURSTSIZE + 1` fires (with
`LIGHT_BURSTSIZE` within the range of the 8-bit counter), then exactly
`LIGHT_BURSTSIZE` tasks were pushed, all of them before the single
`opentimers_stop` of the burst timer, which no longer runs; every task pushed
has sent one packet or still waits; and every packet sent starts with the
header {0xdddd, own short id, seqnum, light_state} set by the transition, which
is still what `light_vars` holds. -/
theorem C6_burst (c : Config) (e : Env) (v : light_vars_t) (evs : List Event)
    (hsrc : light_checkMyId c c.SENSOR_ID = true) (hsens : e.sensor_present = true)
    (hdet : light_rising c v.light_state (light_read c e v) = true ∨
      light_falling c v.light_state (light_read c e v) = true)
    (hsize : c.LIGHT_BURSTSIZE ≤ 255)
    (hevs : ∀ ev ∈ evs, ev.in_burst e.timerId = true)
    (hfires : c.LIGHT_BURSTSIZE + 1 ≤ evs.countP Event.is_fire) :
    (burst_run c e v evs).log.countP Effect.is_push = c.LIGHT_BURSTSIZE ∧
    (burst_run c e v evs).send_timers = 0 ∧
    (∃ l1 l2, (burst_run c e v evs).log = l1 ++ Effect.opentimers_stop e.timerId :: l2 ∧
      l1.countP Effect.is_push = c.LIGHT_BURSTSIZE ∧ l1.countP Effect.is_stop = 0 ∧
      l2.countP Effect.is_push = 0 ∧ l2.countP Effect.is_stop = 0) ∧
    (burst_run c e v evs).log.countP Effect.is_send + (burst_run c e v evs).tasks =
      c.LIGHT_BURSTSIZE ∧
    (∀ p, Effect.sixtop_send p ∈ (burst_run c e v evs).log →
      ∃ q rest, p = some q ∧
        q.payload = light_ht_bytes
          { type := 0xdddd, src := c.myShortID % 65536, seqnum := (v.seqnum + 1) % 65536,
            light_state := !v.light_state } ++ rest) ∧
    light_header c (burst_run c e v evs).vars =
      { type := 0xdddd, src := c.myShortID % 65536, seqnum := (v.seqnum + 1) % 65536,
        light_state := !v.light_state } := by
  obtain ⟨hstart, hleft⟩ := BurstInv_start c e v hsrc hsens hdet
  obtain ⟨hinv, hrun⟩ := BurstInv_run c e.timerId _ hsize evs _ hstart hevs
  have hzero : (burst_run c e v evs).fires_left c = 0 := by
    unfold burst_run
    rw [hrun, hleft]
    omega
  obtain ⟨hh, hle, hpu, hse, hti, hpk⟩ := hinv
  have hoff : (burst_run c e v evs).send_timers = 0 := by
    unfold Node.fires_left at hzero
    omega
  rcases hti with ⟨h1, _⟩ | ⟨_, h2, l1, l2, hl, hs1, hs2, hp2⟩
  · unfold burst_run at hoff
    omega
  · have hpu1 : (burst_run c e v evs).log.countP Effect.is_push = c.LIGHT_BURSTSIZE := by
      unfold burst_run
      rw [hpu, h2]
    refine ⟨hpu1, hoff, ⟨l1, l2, hl, ?_, hs1, hp2, hs2⟩, ?_, hpk, hh⟩
    · have := hpu1
      unfold burst_run at this
      rw [hl, List.countP_append, List.countP_cons, hp2] at this
      simpa [Effect.is_push] using this
    · unfold burst_run
      rw [hse, hpu, h2]

theorem C6_burst_witness :
    (burst_run cfg_source (env_lux 700) (vars_at 5 false) burst_events).log.countP Effect.is_push
      = 3 ∧
    (burst_run cfg_source (env_lux 700) (vars_at 5 false) burst_events).send_timers = 0 ∧
    light_header cfg_source
        (burst_run cfg_source (env_lux 700) (vars_at 5 false) burst_events).vars =
      { type := 0xdddd, src := 1, seqnum := 6, light_state := true } :=
  have h := C6_burst cfg_source (env_lux 700) (vars_at 5 false) burst_events (by decide)
    (by decide) (Or.inl (by decide)) (by decide) (by decide) (by decide)
  ⟨h.1, h.2.1, h.2.2.2.2.2⟩

/-! ## Fresh records on a relay -/

/-- C7: a synchronized node that is not the Sink and not busy forwarding
receives a data record with sequence number `s` above its own, a free buffer
being available.  Afterwards `seqnum` is `s`, `light_state` is the received
state, `busyForwarding` is TRUE, `pktToForward` is the free buffer formatted
with header {0xdddd, own short id, `s`, received state}, and exactly one timer
was started: the one-shot forward timer, with delay `random & 0x3f`, which is
at most 63 for every random value. -/
theorem C7_adopt_and_forward (c : Config) (e : Env) (pkt : OpenQueueEntry_t) (v : light_vars_t)
    (buf : OpenQueueEntry_t) (hsync : e.isSynch = true)
    (hnotsink : light_checkMyId c c.SINK_ID = false) (hidle : v.busyForwarding = false)
    (hnew : v.seqnum < (light_decode pkt.payload).1) (hbuf : e.freeBuffer = some buf) :
    (light_receive_data c e pkt v).1 =
      { v with seqnum := (light_decode pkt.payload).1
               light_state := (light_decode pkt.payload).2
               busyForwarding := true
               fwTimerId := e.timerId
               pktToForward := some
                 { buf with owner := component_t.COMPONENT_LIGHT
                            creator := component_t.COMPONENT_LIGHT
                            payload := light_ht_bytes
                              { type := 0xdddd, src := c.myShortID % 65536,
                                seqnum := (light_decode pkt.payload).1,
                                light_state := (light_decode pkt.payload).2 } ++ buf.payload } } ∧
    Effect.opentimers_start (e.random16 % 65536 &&& 0x3f) timer_type_t.TIMER_ONESHOT
      timer_cb_t.light_timer_fwd_cb ∈ (light_receive_data c e pkt v).2 ∧
    (light_receive_data c e pkt v).2.countP (Effect.starts timer_cb_t.light_timer_fwd_cb) = 1 ∧
    (light_receive_data c e pkt v).2.countP (Effect.starts timer_cb_t.light_timer_send_cb) = 0 ∧
    e.random16 % 65536 &&& 0x3f ≤ 63 := by
  have hnle : ¬ (light_decode pkt.payload).1 ≤ v.seqnum := by omega
  unfold light_receive_data light_schedule_fwd
  simp only [hsync, hnotsink, hidle, hnle, hbuf, light_format_packet, light_header]
  refine ⟨by simp, ?_, ?_, ?_, Nat.and_le_right⟩
  · cases c.LIGHT_DEBUG <;> simp
  · cases c.LIGHT_DEBUG <;> simp [Effect.starts]
  · cases c.LIGHT_DEBUG <;> simp [Effect.starts]

theorem C7_adopt_and_forward_witness :
    (light_receive_data cfg_relay env_ok (data_record 6 true) (vars_at 4 false)).1.seqnum = 6 ∧
    (light_receive_data cfg_relay env_ok (data_record 6 true) (vars_at 4 false)).1.light_state
      = true ∧
    (light_receive_data cfg_relay env_ok (data_record 6 true) (vars_at 4 false)).1.busyForwarding
      = true ∧
    (light_receive_data cfg_relay env_ok (data_record 6 true) (vars_at 4 false)).2.countP
      (Effect.starts timer_cb_t.light_timer_fwd_cb) = 1 :=
  have h := C7_adopt_and_forward cfg_relay env_ok (data_record 6 true) (vars_at 4 false)
    empty_buffer (by decide) (by decide) (by decide) (by decide) rfl
  ⟨by rw [h.1]; decide, by rw [h.1]; decide, by rw [h.1], h.2.2.1⟩

/-- C8: a synchronized node that is not the Sink and is busy forwarding
receives a data record with a sequence number above its own: it adopts the
record's sequence number and state and changes nothing else (`pktToForward`
and `busyForwarding` stay), allocates no buffer and starts no timer; the
forward timer then sends the packet stored before.  In the run
`relay_overtaken` (records 6/TRUE then 7/FALSE, then the forward timer) the
packet handed to the link layer carries 6/TRUE while the node holds 7/FALSE. -/
theorem C8_busy_relay_adopts_without_forward (c : Config) (e e2 : Env) (pkt : OpenQueueEntry_t)
    (v : light_vars_t) (hsync : e.isSynch = true)
    (hnotsink : light_checkMyId c c.SINK_ID = false) (hbusy : v.busyForwarding = true)
    (hnew : v.seqnum < (light_decode pkt.payload).1) :
    (light_receive_data c e pkt v).1 =
      { v with seqnum := (light_decode pkt.payload).1
               light_state := (light_decode pkt.payload).2 } ∧
    (∀ x ∈ (light_receive_data c e pkt v).2,
      x.is_alloc = false ∧ x.is_send = false ∧
      x.starts timer_cb_t.light_timer_fwd_cb = false ∧
      x.starts timer_cb_t.light_timer_send_cb = false) ∧
    Effect.sixtop_send v.pktToForward ∈
      (light_timer_fwd_cb e2 (light_receive_data c e pkt v).1).2 ∧
    (Effect.sixtop_send (some (light_format_packet cfg_relay (vars_at 6 true) empty_buffer))
        ∈ relay_overtaken.log ∧
      relay_overtaken.log.countP Effect.is_send = 1 ∧
      light_header cfg_relay (vars_at 6 true) =
        { type := 0xdddd, src := 3, seqnum := 6, light_state := true } ∧
      relay_overtaken.vars.seqnum = 7 ∧ relay_overtaken.vars.light_state = false ∧
      relay_overtaken.vars.busyForwarding = false) := by
  have hnle : ¬ (light_decode pkt.payload).1 ≤ v.seqnum := by omega
  refine ⟨?_, ?_, ?_, by decide⟩
  · unfold light_receive_data
    simp [hsync, hnotsink, hbusy, hnle]
  · unfold light_receive_data
    simp only [hsync, hnotsink, hbusy, hnle]
    intro x hx
    cases hd : c.LIGHT_DEBUG <;> simp [hd] at hx
    · subst hx; simp [Effect.is_alloc, Effect.is_send, Effect.starts]
    · rcases hx with hx | hx <;> subst hx <;> simp [Effect.is_alloc, Effect.is_send, Effect.starts]
  · unfold light_receive_data light_timer_fwd_cb
    simp [hsync, hnotsink, hbusy, hnle]

theorem C8_busy_relay_adopts_without_forward_witness :
    (light_receive_data cfg_relay env_ok (data_record 7 false)
      (light_receive_data cfg_relay env_ok (data_record 6 true) (vars_at 4 false)).1).1.seqnum
      = 7 ∧
    (light_receive_data cfg_relay env_ok (data_record 7 false)
      (light_receive_data cfg_relay env_ok (data_record 6 true)
        (vars_at 4 false)).1).1.pktToForward =
      (light_receive_data cfg_relay env_ok (data_record 6 true) (vars_at 4 false)).1.pktToForward :=
  have h := C8_busy_relay_adopts_without_forward cfg_relay env_ok env_ok (data_record 7 false)
    (light_receive_data cfg_relay env_ok (data_record 6 true) (vars_at 4 false)).1
    (by decide) (by decide) (by decide) (by decide)
  ⟨by rw [h.1]; decide, by rw [h.1]⟩

/-! ## The sink -/

theorem light_process_packet_at_sink_indicator (c : Config) (v : light_vars_t) :
    (light_process_packet_at_sink c v).countP Effect.is_indicator = 1 ∧
    (if v.light_state then Effect.debugpins_rxlight_set else Effect.debugpins_rxlight_clr) ∈
      light_process_packet_at_sink c v := by
  unfold light_process_packet_at_sink
  cases c.LIGHT_CALCULATE_DELAY <;> cases v.light_state <;> simp [Effect.is_indicator]

theorem beacon_is_recent_of_le (c : Config) (counter : Int) (seqnum : Nat)
    (hrange : -32768 ≤ counter ∧ counter < 32768) (hle : (seqnum : Int) ≤ counter) :
    beacon_is_recent c counter seqnum = true ∧ (toU16 counter : Int) = counter := by
  have hu := toU16_of_range counter (by omega) (by omega)
  refine ⟨?_, hu⟩
  unfold beacon_is_recent
  split
  · simpa using hle
  · simp only [decide_eq_true_eq]
    omega

/-- C9 (as stated, refuted): the Sink at counter 10 with state TRUE receives a
beacon with counter 10 and state TRUE.  The adopt branch is taken, but nothing
is called: the sink processor is not invoked and the indicator is not
refreshed. -/
theorem C9_equal_beacon_same_state_not_processed :
    light_checkMyId cfg_sink cfg_sink.SINK_ID = true ∧ env_ok.isSynch = true ∧
    beacon_is_recent cfg_sink (toI16 (beacon 10 true 256).l2_floodingCounter)
      (vars_at 10 true).seqnum = true ∧
    (light_receive_beacon cfg_sink env_ok (beacon 10 true 256) (vars_at 10 true)).2 = [] ∧
    (light_receive_beacon cfg_sink env_ok (beacon 10 true 256) (vars_at 10 true)).2.countP
      Effect.at_sink = 0 := by
  decide

/-- C9 (amended): a synchronized Sink receives a beacon whose counter equals
the local `seqnum`.  The adopt branch is taken and `seqnum`, `busyForwarding`
and `pktToForward` keep their values.  If the beacon's state differs from the
local state, the calls made are exactly those of one run of the sink processor
on the resulting `light_vars` (the indicator is written once, to the resulting
`light_state`, which is the beacon's state unless the node is also the sensor).
If the beacon's state equals the local state, `light_vars` is unchanged and
nothing is called. -/
theorem C9_equal_beacon_at_sink (c : Config) (e : Env) (pkt : OpenQueueEntry_t)
    (v : light_vars_t) (hsync : e.isSynch = true)
    (hsink : light_checkMyId c c.SINK_ID = true)
    (heq : toI16 pkt.l2_floodingCounter = (v.seqnum : Int)) :
    beacon_is_recent c (toI16 pkt.l2_floodingCounter) v.seqnum = true ∧
    (light_receive_beacon c e pkt v).1.seqnum = v.seqnum ∧
    (light_receive_beacon c e pkt v).1.busyForwarding = v.busyForwarding ∧
    (light_receive_beacon c e pkt v).1.pktToForward = v.pktToForward ∧
    (pkt.l2_floodingState ≠ v.light_state →
      (light_receive_beacon c e pkt v).2 =
        light_process_packet_at_sink c (light_receive_beacon c e pkt v).1 ∧
      (light_receive_beacon c e pkt v).2.countP Effect.is_indicator = 1 ∧
      (light_checkMyId c c.SENSOR_ID = false →
        (light_receive_beacon c e pkt v).1.light_state = pkt.l2_floodingState)) ∧
    (pkt.l2_floodingState = v.light_state →
      (light_receive_beacon c e pkt v).1 = v ∧ (light_receive_beacon c e pkt v).2 = []) := by
  obtain ⟨hrec, hu⟩ := beacon_is_recent_of_le c (toI16 pkt.l2_floodingCounter) v.seqnum
    (toI16_range _) (le_of_eq heq.symm)
  have hseq : toU16 (toI16 pkt.l2_floodingCounter) = v.seqnum := by
    have := hu.trans heq
    exact_mod_cast this
  refine ⟨hrec, ?_⟩
  unfold light_receive_beacon
  simp only [hsync, hrec, hsink, hseq]
  by_cases hst : pkt.l2_floodingState = v.light_state
  · simp [hst]
  · have hne : (v.light_state != pkt.l2_floodingState) = true := by
      cases h1 : v.light_state <;> cases h2 : pkt.l2_floodingState <;> simp_all
    simp only [hne]
    cases hsen : light_checkMyId c c.SENSOR_ID
    · simp [hst, (light_process_packet_at_sink_indicator c _).1]
    · simp [hst, (light_process_packet_at_sink_indicator c _).1]

theorem C9_equal_beacon_at_sink_witness :
    (light_receive_beacon cfg_sink env_ok (beacon 10 true 256) (vars_at 10 false)).2 =
      [Effect.debugpins_rxlight_set,
       Effect.openserial_printInfo errcode_t.ERR_FLOOD_STATE 1 0] ∧
    (light_receive_beacon cfg_sink env_ok (beacon 10 true 256) (vars_at 10 true)).2 = [] :=
  ⟨((C9_equal_beacon_at_sink cfg_sink env_ok (beacon 10 true 256) (vars_at 10 false) (by decide)
      (by decide) (by decide)).2.2.2.2.1 (by decide)).1.trans (by decide),
   ((C9_equal_beacon_at_sink cfg_sink env_ok (beacon 10 true 256) (vars_at 10 true) (by decide)
      (by decide) (by decide)).2.2.2.2.2 (by decide)).2⟩

/-- C10 (as stated, refuted): the Sink at sequence number 4 with state TRUE
receives a beacon with counter 6 and state TRUE.  The counter is adopted, but
nothing is called: `light_process_packet_at_sink` is not invoked. -/
theorem C10_newer_beacon_same_state_not_processed :
    light_checkMyId cfg_sink cfg_sink.SINK_ID = true ∧ env_ok.isSynch = true ∧
    (vars_at 4 true).seqnum < 6 ∧
    (light_receive_beacon cfg_sink env_ok (beacon 6 true 256) (vars_at 4 true)).1.seqnum = 6 ∧
    (light_receive_beacon cfg_sink env_ok (beacon 6 true 256) (vars_at 4 true)).2 = [] ∧
    (light_receive_beacon cfg_sink env_ok (beacon 6 true 256) (vars_at 4 true)).2.countP
      Effect.is_indicator = 0 := by
  decide

/-- C10 (amended): on a synchronized Sink, a data record with a sequence
number above the Sink's runs the sink processor exactly once, on the adopted
state, whether or not that state differs from the previous one; a beacon with
a counter above the Sink's `seqnum` has the counter adopted and runs the sink
processor exactly once, on the resulting state, when the beacon's state differs
from the Sink's state, and not at all when the two states are equal. -/
theorem C10_sink_processing (c : Config) (e : Env) (pkt : OpenQueueEntry_t) (v : light_vars_t)
    (hsync : e.isSynch = true) (hsink : light_checkMyId c c.SINK_ID = true) :
    (v.seqnum < (light_decode pkt.payload).1 →
      (light_receive_data c e pkt v).1.seqnum = (light_decode pkt.payload).1 ∧
      (light_receive_data c e pkt v).1.light_state = (light_decode pkt.payload).2 ∧
      (light_receive_data c e pkt v).2.countP Effect.is_indicator = 1 ∧
      (if (light_decode pkt.payload).2 then Effect.debugpins_rxlight_set
        else Effect.debugpins_rxlight_clr) ∈ (light_receive_data c e pkt v).2) ∧
    ((v.seqnum : Int) < toI16 pkt.l2_floodingCounter →
      ((light_receive_beacon c e pkt v).1.seqnum : Int) = toI16 pkt.l2_floodingCounter ∧
      (light_receive_beacon c e pkt v).2.countP Effect.is_indicator =
        (if pkt.l2_floodingState = v.light_state then 0 else 1) ∧
      (pkt.l2_floodingState ≠ v.light_state →
        (if (light_receive_beacon c e pkt v).1.light_state then Effect.debugpins_rxlight_set
          else Effect.debugpins_rxlight_clr) ∈ (light_receive_beacon c e pkt v).2)) := by
  constructor
  · intro hnew
    have hnle : ¬ (light_decode pkt.payload).1 ≤ v.seqnum := by omega
    unfold light_receive_data
    simp only [hsync, hsink, hnle]
    have hi := light_process_packet_at_sink_indicator c
      { v with seqnum := (light_decode pkt.payload).1,
               light_state := (light_decode pkt.payload).2 }
    refine ⟨by simp, by simp, ?_, ?_⟩
    · cases c.LIGHT_DEBUG <;> simp [List.countP_append, hi.1, Effect.is_indicator]
    · have h2 := hi.2
      cases c.LIGHT_DEBUG <;> simp at h2 ⊢ <;> simp [h2]
  · intro hnew
    obtain ⟨hrec, hu⟩ := beacon_is_recent_of_le c (toI16 pkt.l2_floodingCounter) v.seqnum
      (toI16_range _) (le_of_lt hnew)
    unfold light_receive_beacon
    simp only [hsync, hrec, hsink]
    by_cases hst : pkt.l2_floodingState = v.light_state
    · simp [hst, hu]
    · have hne : (v.light_state != pkt.l2_floodingState) = true := by
        cases h1 : v.light_state <;> cases h2 : pkt.l2_floodingState <;> simp_all
      simp only [hne]
      cases hsen : light_checkMyId c c.SENSOR_ID
      · simp [hst, hu, light_process_packet_at_sink_indicator c _]
      · simp [hst, hu, light_process_packet_at_sink_indicator c _]

theorem C10_sink_processing_witness :
    (light_receive_data cfg_sink env_ok (data_record 6 true) (vars_at 4 true)).2.countP
      Effect.is_indicator = 1 ∧
    (light_receive_beacon cfg_sink env_ok (beacon 6 false 256) (vars_at 4 true)).2.countP
      Effect.is_indicator = 1 :=
  ⟨((C10_sink_processing cfg_sink env_ok (data_record 6 true) (vars_at 4 true) (by decide)
      (by decide)).1 (by decide)).2.2.1,
   ((C10_sink_processing cfg_sink env_ok (beacon 6 false 256) (vars_at 4 true) (by decide)
      (by decide)).2 (by decide)).2.1⟩

/-! ## Stale beacons -/

theorem beacon_not_recent (c : Config) (counter : Int) (seqnum : Nat)
    (hrange : -32768 ≤ counter ∧ counter < 32768) (hlt : counter < (seqnum : Int))
    (hint : c.int_wide = true ∨ 0 ≤ counter) : beacon_is_recent c counter seqnum = false := by
  unfold beacon_is_recent
  by_cases hw : c.int_wide = true
  · simp only [hw, if_true, decide_eq_false_iff_not]
    omega
  · have h0 : 0 ≤ counter := by
      rcases hint with h | h
      · exact absurd h hw
      · exact h
    have hu := toU16_of_range counter h0 (by omega)
    rw [if_neg hw]
    simp only [decide_eq_false_iff_not]
    omega

/-- C11 (as stated, refuted): on a target with a 16-bit `int`, a synchronized
relay at sequence number 5 with state FALSE receives a beacon with counter -1
(strictly less than 5) and state TRUE.  The comparison converts the counter to
`unsigned int`, 65535, so the adopt branch is taken: afterwards `seqnum` is
65535 and `light_state` is TRUE. -/
theorem C11_negative_counter_adopted_on_16bit_int :
    (cfg_node 3 false).int_wide = false ∧ env_ok.isSynch = true ∧
    toI16 (beacon (-1) true 256).l2_floodingCounter < ((vars_at 5 false).seqnum : Int) ∧
    beacon_is_recent (cfg_node 3 false) (toI16 (beacon (-1) true 256).l2_floodingCounter)
      (vars_at 5 false).seqnum = true ∧
    (light_receive_beacon (cfg_node 3 false) env_ok (beacon (-1) true 256)
      (vars_at 5 false)).1.seqnum = 65535 ∧
    (light_receive_beacon (cfg_node 3 false) env_ok (beacon (-1) true 256)
      (vars_at 5 false)).1.light_state = true ∧
    (light_receive_beacon (cfg_node 3 false) env_ok (beacon (-1) true 256)
      (vars_at 5 false)).1.seqnum ≠ (vars_at 5 false).seqnum := by
  decide

/-- C11 (amended): a synchronized node receives a beacon whose counter is
strictly less than the local `seqnum` and, on a target with a 16-bit `int`, is
not negative.  `seqnum` and `light_state` are unchanged.  If the local state
differs from the beacon's, the node is not busy forwarding, the beacon's rank
is strictly less than the node's DAG rank and a free buffer is available, a
forward is scheduled: `busyForwarding` is set, `pktToForward` is the buffer
formatted from the local `seqnum` and state, and exactly one one-shot forward
timer is started, with a delay of at most 63.  In every other case
`light_vars` is unchanged, no timer is started and nothing is sent. -/
theorem C11_stale_beacon (c : Config) (e : Env) (pkt : OpenQueueEntry_t) (v : light_vars_t)
    (hsync : e.isSynch = true)
    (hlt : toI16 pkt.l2_floodingCounter < (v.seqnum : Int))
    (hint : c.int_wide = true ∨ 0 ≤ toI16 pkt.l2_floodingCounter) :
    ((light_receive_beacon c e pkt v).1.seqnum = v.seqnum ∧
      (light_receive_beacon c e pkt v).1.light_state = v.light_state) ∧
    (∀ buf, v.light_state ≠ pkt.l2_floodingState → v.busyForwarding = false →
      pkt.l2_rank < e.myDAGrank → e.freeBuffer = some buf →
      (light_receive_beacon c e pkt v).1 =
        { v with pktToForward := some (light_format_packet c v buf)
                 busyForwarding := true
                 fwTimerId := e.timerId } ∧
      Effect.opentimers_start (e.random16 % 65536 &&& 0x3f) timer_type_t.TIMER_ONESHOT
        timer_cb_t.light_timer_fwd_cb ∈ (light_receive_beacon c e pkt v).2 ∧
      (light_receive_beacon c e pkt v).2.countP (Effect.starts timer_cb_t.light_timer_fwd_cb)
        = 1 ∧
      e.random16 % 65536 &&& 0x3f ≤ 63) ∧
    ((v.light_state = pkt.l2_floodingState ∨ v.busyForwarding = true ∨
        e.myDAGrank ≤ pkt.l2_rank ∨ e.freeBuffer = none) →
      (light_receive_beacon c e pkt v).1 = v ∧
      (light_receive_beacon c e pkt v).2.countP (Effect.starts timer_cb_t.light_timer_fwd_cb)
        = 0 ∧
      (light_receive_beacon c e pkt v).2.countP Effect.is_send = 0) := by
  have hnr := beacon_not_recent c _ v.seqnum (toI16_range pkt.l2_floodingCounter) hlt hint
  unfold light_receive_beacon
  simp only [hsync, hnr, Bool.false_eq_true, if_false]
  refine ⟨?_, ?_, ?_⟩
  · by_cases hg : (v.light_state == pkt.l2_floodingState || v.busyForwarding == true ||
        decide (pkt.l2_rank ≥ e.myDAGrank)) = true
    · rw [if_pos hg]
      exact ⟨rfl, rfl⟩
    · rw [if_neg hg]
      exact light_schedule_fwd_seqnum _ _ _ _ _ _ _
  · intro buf hst hidle hrank hbuf
    have h1 : (v.light_state == pkt.l2_floodingState) = false := by
      cases h1 : v.light_state <;> cases h2 : pkt.l2_floodingState <;> simp_all
    have h3 : ¬ (pkt.l2_rank ≥ e.myDAGrank) := by omega
    simp only [h1, hidle, h3, light_schedule_fwd, hbuf]
    refine ⟨by simp, ?_, ?_, Nat.and_le_right⟩
    · cases c.LIGHT_DEBUG <;> simp
    · cases c.LIGHT_DEBUG <;> simp [Effect.starts]
  · intro hcase
    by_cases hg : (v.light_state == pkt.l2_floodingState || v.busyForwarding == true ||
        decide (pkt.l2_rank ≥ e.myDAGrank)) = true
    · rw [if_pos hg]
      simp
    · have hnone : e.freeBuffer = none := by
        rcases hcase with h | h | h | h
        · simp [h] at hg
        · simp [h] at hg
        · have : pkt.l2_rank ≥ e.myDAGrank := h
          simp [this] at hg
        · exact h
      rw [if_neg hg]
      simp only [light_schedule_fwd, hnone]
      simp [Effect.starts, Effect.is_send]

theorem C11_stale_beacon_witness :
    (light_receive_beacon cfg_relay env_ok (beacon 3 false 256) (vars_at 6 true)).1.seqnum = 6 ∧
    (light_receive_beacon cfg_relay env_ok (beacon 3 false 256)
      (vars_at 6 true)).1.busyForwarding = true ∧
    (light_receive_beacon cfg_relay env_ok (beacon 3 false 1024) (vars_at 6 true)).1 =
      vars_at 6 true :=
  have h1 := C11_stale_beacon cfg_relay env_ok (beacon 3 false 256) (vars_at 6 true)
    (by decide) (by decide) (Or.inl (by decide))
  have h2 := C11_stale_beacon cfg_relay env_ok (beacon 3 false 1024) (vars_at 6 true)
    (by decide) (by decide) (Or.inl (by decide))
  ⟨h1.1.1, by rw [(h1.2.1 empty_buffer (by decide) (by decide) (by decide) rfl).1],
   (h2.2.2 (Or.inr (Or.inr (Or.inl (by decide))))).1⟩

/-! ## When nothing is forwarded -/

theorem light_receive_beacon_quiet (c : Config) (e : Env) (pkt : OpenQueueEntry_t)
    (v : light_vars_t)
    (h : e.isSynch = false ∨ beacon_is_recent c (toI16 pkt.l2_floodingCounter) v.seqnum = true ∨
      v.light_state = pkt.l2_floodingState ∨ v.busyForwarding = true ∨
      e.myDAGrank ≤ pkt.l2_rank ∨ e.freeBuffer = none) :
    (light_receive_beacon c e pkt v).1.busyForwarding = v.busyForwarding ∧
    (light_receive_beacon c e pkt v).1.pktToForward = v.pktToForward ∧
    (light_receive_beacon c e pkt v).2.countP (Effect.starts timer_cb_t.light_timer_fwd_cb) = 0 ∧
    (light_receive_beacon c e pkt v).2.countP Effect.is_send = 0 := by
  have hsink : ∀ w : light_vars_t,
      (light_process_packet_at_sink c w).countP Effect.is_send = 0 := by
    intro w
    unfold light_process_packet_at_sink
    cases c.LIGHT_CALCULATE_DELAY <;> cases w.light_state <;> simp [Effect.is_send]
  unfold light_receive_beacon
  simp only []
  by_cases hs : (e.isSynch == false) = true
  · rw [if_pos hs]
    simp
  · rw [if_neg hs]
    by_cases hr : beacon_is_recent c (toI16 pkt.l2_floodingCounter) v.seqnum = true
    · rw [if_pos hr]
      split
      · split
        · refine ⟨?_, ?_, light_process_packet_at_sink_no_start _ _ _, hsink _⟩ <;> split <;> rfl
        · refine ⟨?_, ?_, by simp, by simp⟩ <;> split <;> rfl
      · simp
    · rw [if_neg hr]
      by_cases hg : (v.light_state == pkt.l2_floodingState || v.busyForwarding == true ||
          decide (pkt.l2_rank ≥ e.myDAGrank)) = true
      · rw [if_pos hg]
        simp
      · rw [if_neg hg]
        have hnone : e.freeBuffer = none := by
          rcases h with h | h | h | h | h | h
          · simp [h] at hs
          · exact absurd h hr
          · simp [h] at hg
          · simp [h] at hg
          · have : pkt.l2_rank ≥ e.myDAGrank := h
            simp [this] at hg
          · exact h
        simp only [light_schedule_fwd, hnone]
        simp [Effect.starts, Effect.is_send]

theorem light_receive_data_quiet (c : Config) (e : Env) (pkt : OpenQueueEntry_t)
    (v : light_vars_t)
    (h : e.isSynch = false ∨ (light_decode pkt.payload).1 ≤ v.seqnum ∨
      light_checkMyId c c.SINK_ID = true ∨ v.busyForwarding = true ∨ e.freeBuffer = none) :
    (light_receive_data c e pkt v).1.busyForwarding = v.busyForwarding ∧
    (light_receive_data c e pkt v).1.pktToForward = v.pktToForward ∧
    (light_receive_data c e pkt v).2.countP (Effect.starts timer_cb_t.light_timer_fwd_cb) = 0 ∧
    (light_receive_data c e pkt v).2.countP Effect.is_send = 0 := by
  have hsink : ∀ w : light_vars_t,
      (light_process_packet_at_sink c w).countP Effect.is_send = 0 := by
    intro w
    unfold light_process_packet_at_sink
    cases c.LIGHT_CALCULATE_DELAY <;> cases w.light_state <;> simp [Effect.is_send]
  unfold light_receive_data
  simp only []
  by_cases hs : (e.isSynch == false) = true
  · rw [if_pos hs]
    simp [Effect.starts, Effect.is_send]
  · rw [if_neg hs]
    by_cases hle : (light_decode pkt.payload).1 ≤ v.seqnum
    · rw [if_pos hle]
      cases c.LIGHT_DEBUG <;> simp [Effect.starts, Effect.is_send]
    · rw [if_neg hle]
      by_cases hk : light_checkMyId c c.SINK_ID = true
      · rw [if_pos hk]
        refine ⟨rfl, rfl, ?_, ?_⟩
        · rw [List.countP_append, light_process_packet_at_sink_no_start]
          cases c.LIGHT_DEBUG <;> simp [Effect.starts]
        · rw [List.countP_append, hsink]
          cases c.LIGHT_DEBUG <;> simp [Effect.is_send]
      · rw [if_neg hk]
        by_cases hb : v.busyForwarding = true
        · simp only [hb]
          cases c.LIGHT_DEBUG <;> simp [Effect.starts, Effect.is_send]
        · have hnone : e.freeBuffer = none := by
            rcases h with h | h | h | h | h
            · simp [h] at hs
            · exact absurd h hle
            · exact absurd h hk
            · exact absurd h hb
            · exact h
          have hb2 : v.busyForwarding = false := by simpa using hb
          simp only [hb2, light_schedule_fwd, hnone]
          cases c.LIGHT_DEBUG <;> simp [Effect.starts, Effect.is_send, hb2]

/-! ## Beacons and the Source -/

/-- C12 (as stated, refuted): a node that is not the Source and is not
synchronized, holding sequence number 4 and state FALSE, receives a beacon
with counter 6 (at least the local `seqnum`) and state TRUE.  The beacon is
ignored: `light_state` stays FALSE, not the beacon's state, and `seqnum`
stays 4. -/
theorem C12_unsynchronized_beacon_not_adopted :
    light_checkMyId cfg_relay cfg_relay.SENSOR_ID = false ∧
    ((vars_at 4 false).seqnum : Int) ≤ toI16 (beacon 6 true 256).l2_floodingCounter ∧
    (light_receive_beacon cfg_relay env_unsynced (beacon 6 true 256)
      (vars_at 4 false)).1.light_state = false ∧
    (light_receive_beacon cfg_relay env_unsynced (beacon 6 true 256)
      (vars_at 4 false)).1.light_state ≠ (beacon 6 true 256).l2_floodingState ∧
    (light_receive_beacon cfg_relay env_unsynced (beacon 6 true 256)
      (vars_at 4 false)).1.seqnum = 4 := by
  decide

/-- C12 (amended): on the Source, `light_receive_beacon` never changes
`light_state`, whatever the beacon and whether or not the node is
synchronized; on a synchronized node a beacon with counter at least the local
`seqnum` sets `seqnum` to the counter; on a synchronized node that is not the
Source such a beacon leaves `light_state` equal to the beacon's state. -/
theorem C12_beacon_and_source (c : Config) (e : Env) (pkt : OpenQueueEntry_t)
    (v : light_vars_t) :
    (light_checkMyId c c.SENSOR_ID = true →
      (light_receive_beacon c e pkt v).1.light_state = v.light_state) ∧
    (e.isSynch = true → (v.seqnum : Int) ≤ toI16 pkt.l2_floodingCounter →
      ((light_receive_beacon c e pkt v).1.seqnum : Int) = toI16 pkt.l2_floodingCounter) ∧
    (e.isSynch = true → light_checkMyId c c.SENSOR_ID = false →
      (v.seqnum : Int) ≤ toI16 pkt.l2_floodingCounter →
      (light_receive_beacon c e pkt v).1.light_state = pkt.l2_floodingState) := by
  refine ⟨?_, ?_, ?_⟩
  · intro hsrc
    unfold light_receive_beacon
    simp only [hsrc]
    split
    · rfl
    · split
      · split
        · split <;> simp
        · rfl
      · split
        · rfl
        · exact (light_schedule_fwd_seqnum _ _ _ _ _ _ _).2
  · intro hsync hge
    obtain ⟨hrec, hu⟩ := beacon_is_recent_of_le c _ v.seqnum (toI16_range _) hge
    have hseq : (light_receive_beacon c e pkt v).1.seqnum =
        toU16 (toI16 pkt.l2_floodingCounter) := by
      unfold light_receive_beacon
      simp only [hsync, hrec]
      by_cases hst : v.light_state = pkt.l2_floodingState
      · simp [hst]
      · have hne : (v.light_state != pkt.l2_floodingState) = true := by
          cases h1 : v.light_state <;> cases h2 : pkt.l2_floodingState <;> simp_all
        simp only [hne]
        cases light_checkMyId c c.SENSOR_ID <;> cases light_checkMyId c c.SINK_ID <;> simp
    rw [hseq]
    exact hu
  · intro hsync hnsrc hge
    obtain ⟨hrec, hu⟩ := beacon_is_recent_of_le c _ v.seqnum (toI16_range _) hge
    unfold light_receive_beacon
    simp only [hsync, hrec, hnsrc]
    by_cases hst : v.light_state = pkt.l2_floodingState
    · simp [hst]
    · have hne : (v.light_state != pkt.l2_floodingState) = true := by
        cases h1 : v.light_state <;> cases h2 : pkt.l2_floodingState <;> simp_all
      simp only [hne]
      cases light_checkMyId c c.SINK_ID <;> simp

theorem C12_beacon_and_source_witness :
    (light_receive_beacon cfg_source env_ok (beacon 9 true 256) (vars_at 5 false)).1.light_state
      = false ∧
    ((light_receive_beacon cfg_source env_ok (beacon 9 true 256) (vars_at 5 false)).1.seqnum : Int)
      = 9 ∧
    (light_receive_beacon cfg_relay env_ok (beacon 9 true 256) (vars_at 5 false)).1.light_state
      = true :=
  ⟨(C12_beacon_and_source cfg_source env_ok (beacon 9 true 256) (vars_at 5 false)).1 (by decide),
   ((C12_beacon_and_source cfg_source env_ok (beacon 9 true 256) (vars_at 5 false)).2.1
      (by decide) (by decide)).trans (by decide),
   (C12_beacon_and_source cfg_relay env_ok (beacon 9 true 256) (vars_at 5 false)).2.2
      (by decide) (by decide) (by decide)⟩

/-! ## The Sink and forwarding -/

/-- C13 (as stated, refuted): the Sink, at sequence number 6 with state TRUE,
DAG rank 768 and a free buffer, receives a beacon with the older counter 3,
state FALSE and rank 256.  It sets `busyForwarding`, stores a packet and starts
the forward timer. -/
theorem C13_sink_forwards_on_stale_beacon :
    light_checkMyId cfg_sink cfg_sink.SINK_ID = true ∧
    (light_receive_beacon cfg_sink env_ok (beacon 3 false 256)
      (vars_at 6 true)).1.busyForwarding = true ∧
    (light_receive_beacon cfg_sink env_ok (beacon 3 false 256)
      (vars_at 6 true)).1.pktToForward =
        some (light_format_packet cfg_sink (vars_at 6 true) empty_buffer) ∧
    (light_receive_beacon cfg_sink env_ok (beacon 3 false 256) (vars_at 6 true)).2.countP
      (Effect.starts timer_cb_t.light_timer_fwd_cb) = 1 := by
  decide

/-- C13 (amended): on the Sink no call of `light_receive_data`, for any
input, sets `busyForwarding`, stores a `pktToForward` or starts the forward
timer; a call of `light_receive_beacon` does none of these when the beacon's
rank is at least the Sink's own DAG rank, and whenever it does one of them the
node is synchronized, the beacon is older than the local `seqnum`, its state
differs from the local state, the Sink was not busy, a buffer was free and the
beacon's rank is strictly less than the Sink's DAG rank. -/
theorem C13_sink_forwarding (c : Config) (e : Env) (pkt : OpenQueueEntry_t) (v : light_vars_t)
    (hsink : light_checkMyId c c.SINK_ID = true) :
    ((light_receive_data c e pkt v).1.busyForwarding = v.busyForwarding ∧
      (light_receive_data c e pkt v).1.pktToForward = v.pktToForward ∧
      (light_receive_data c e pkt v).2.countP (Effect.starts timer_cb_t.light_timer_fwd_cb)
        = 0) ∧
    (e.myDAGrank ≤ pkt.l2_rank →
      (light_receive_beacon c e pkt v).1.busyForwarding = v.busyForwarding ∧
      (light_receive_beacon c e pkt v).1.pktToForward = v.pktToForward ∧
      (light_receive_beacon c e pkt v).2.countP (Effect.starts timer_cb_t.light_timer_fwd_cb)
        = 0) ∧
    (((light_receive_beacon c e pkt v).1.busyForwarding ≠ v.busyForwarding ∨
        (light_receive_beacon c e pkt v).1.pktToForward ≠ v.pktToForward ∨
        (light_receive_beacon c e pkt v).2.countP (Effect.starts timer_cb_t.light_timer_fwd_cb)
          ≠ 0) →
      e.isSynch = true ∧
      beacon_is_recent c (toI16 pkt.l2_floodingCounter) v.seqnum = false ∧
      v.light_state ≠ pkt.l2_floodingState ∧ v.busyForwarding = false ∧
      pkt.l2_rank < e.myDAGrank ∧ e.freeBuffer ≠ none) := by
  refine ⟨?_, ?_, ?_⟩
  · have h := light_receive_data_quiet c e pkt v (Or.inr (Or.inr (Or.inl hsink)))
    exact ⟨h.1, h.2.1, h.2.2.1⟩
  · intro hrank
    have h := light_receive_beacon_quiet c e pkt v (Or.inr (Or.inr (Or.inr (Or.inr (Or.inl hrank)))))
    exact ⟨h.1, h.2.1, h.2.2.1⟩
  · intro hch
    by_contra hcon
    have hq : e.isSynch = false ∨
        beacon_is_recent c (toI16 pkt.l2_floodingCounter) v.seqnum = true ∨
        v.light_state = pkt.l2_floodingState ∨ v.busyForwarding = true ∨
        e.myDAGrank ≤ pkt.l2_rank ∨ e.freeBuffer = none := by
      by_contra hall
      apply hcon
      simp only [not_or] at hall
      obtain ⟨h1, h2, h3, h4, h5, h6⟩ := hall
      exact ⟨by simpa using h1, by simpa using h2, h3, by simpa using h4, by omega, h6⟩
    have h := light_receive_beacon_quiet c e pkt v hq
    rcases hch with h1 | h1 | h1
    · exact h1 h.1
    · exact h1 h.2.1
    · exact h1 h.2.2.1

theorem C13_sink_forwarding_witness :
    (light_receive_data cfg_sink env_ok (data_record 9 true) (vars_at 6 false)).1.busyForwarding
      = false ∧
    (light_receive_beacon cfg_sink env_ok (beacon 3 false 1024)
      (vars_at 6 true)).1.busyForwarding = false :=
  have h := C13_sink_forwarding cfg_sink env_ok (beacon 3 false 1024) (vars_at 6 true)
    (by decide)
  ⟨(C13_sink_forwarding cfg_sink env_ok (data_record 9 true) (vars_at 6 false)
      (by decide)).1.1,
   (h.2.1 (by decide)).1⟩

/-! ## Unsynchronized nodes -/

/-- C14: when `ieee154e_isSynch()` is FALSE, `light_receive_data` leaves
`light_vars` unchanged and its only call releases the received buffer;
`light_receive_beacon` leaves `light_vars` unchanged and calls nothing.  So
every field is unchanged, the sink processor is not invoked and no forward is
scheduled, for every packet content. -/
theorem C14_unsynchronized_ignored (c : Config) (e : Env) (pkt : OpenQueueEntry_t)
    (v : light_vars_t) (hunsync : e.isSynch = false) :
    light_receive_data c e pkt v = (v, [Effect.openqueue_freePacketBuffer (some pkt)]) ∧
    light_receive_beacon c e pkt v = (v, []) := by
  unfold light_receive_data light_receive_beacon
  simp [hunsync]

theorem C14_unsynchronized_ignored_witness :
    env_unsynced.isSynch = false ∧
    light_receive_data cfg_sink env_unsynced (data_record 9 true) (vars_at 6 false) =
      (vars_at 6 false, [Effect.openqueue_freePacketBuffer (some (data_record 9 true))]) ∧
    light_receive_beacon cfg_sink env_unsynced (beacon 9 true 256) (vars_at 6 false) =
      (vars_at 6 false, []) :=
  ⟨by decide,
   (C14_unsynchronized_ignored cfg_sink env_unsynced (data_record 9 true) (vars_at 6 false)
      (by decide)).1,
   (C14_unsynchronized_ignored cfg_sink env_unsynced (beacon 9 true 256) (vars_at 6 false)
      (by decide)).2⟩

/-! ## The forward timer -/

/-- C15: `light_timer_fwd_cb` hands `pktToForward` to `sixtop_send` exactly
once; when `sixtop_send` returns `E_FAIL` it frees that buffer, once, and
otherwise frees nothing; there is no other call (no retry, no timer).  In both
cases it ends with `busyForwarding` FALSE and `pktToForward` NULL and changes
no other field, so `seqnum` and `light_state` are unchanged. -/
theorem C15_forward_timer (e : Env) (v : light_vars_t) :
    (light_timer_fwd_cb e v).2 =
      Effect.sixtop_send v.pktToForward ::
        (if e.send_fails then [Effect.openqueue_freePacketBuffer v.pktToForward] else []) ∧
    (light_timer_fwd_cb e v).2.countP Effect.is_send = 1 ∧
    (light_timer_fwd_cb e v).1 = { v with busyForwarding := false, pktToForward := none } ∧
    (light_timer_fwd_cb e v).1.busyForwarding = false ∧
    (light_timer_fwd_cb e v).1.pktToForward = none ∧
    (light_timer_fwd_cb e v).1.seqnum = v.seqnum ∧
    (light_timer_fwd_cb e v).1.light_state = v.light_state := by
  unfold light_timer_fwd_cb
  cases e.send_fails <;> simp [Effect.is_send]

/-! ## No free buffer -/

/-- C16: when `openqueue_getFreePacketBuffer` has no buffer to give,
`light_send_task_cb` reports the error and does nothing else: nothing is sent
and `light_vars` (the burst counter included) is unchanged.
`light_receive_data` and `light_receive_beacon` send nothing, start no forward
timer and leave `busyForwarding` and `pktToForward` as they were; whenever
they asked for a buffer, `busyForwarding` was FALSE and stays FALSE, and the
error is reported. -/
theorem C16_no_free_buffer (c : Config) (e : Env) (pkt : OpenQueueEntry_t) (v : light_vars_t)
    (hnone : e.freeBuffer = none) :
    light_send_task_cb c e v =
      (v, [Effect.openqueue_getFreePacketBuffer,
           Effect.openserial_printError errcode_t.ERR_NO_FREE_PACKET_BUFFER 0 0]) ∧
    ((light_receive_data c e pkt v).1.busyForwarding = v.busyForwarding ∧
      (light_receive_data c e pkt v).1.pktToForward = v.pktToForward ∧
      (light_receive_data c e pkt v).2.countP (Effect.starts timer_cb_t.light_timer_fwd_cb) = 0 ∧
      (light_receive_data c e pkt v).2.countP Effect.is_send = 0 ∧
      (Effect.openqueue_getFreePacketBuffer ∈ (light_receive_data c e pkt v).2 →
        v.busyForwarding = false ∧ (light_receive_data c e pkt v).1.busyForwarding = false ∧
        Effect.openserial_printError errcode_t.ERR_NO_FREE_PACKET_BUFFER 1 0 ∈
          (light_receive_data c e pkt v).2)) ∧
    ((light_receive_beacon c e pkt v).1.busyForwarding = v.busyForwarding ∧
      (light_receive_beacon c e pkt v).1.pktToForward = v.pktToForward ∧
      (light_receive_beacon c e pkt v).2.countP (Effect.starts timer_cb_t.light_timer_fwd_cb)
        = 0 ∧
      (light_receive_beacon c e pkt v).2.countP Effect.is_send = 0 ∧
      (Effect.openqueue_getFreePacketBuffer ∈ (light_receive_beacon c e pkt v).2 →
        v.busyForwarding = false ∧ (light_receive_beacon c e pkt v).1.busyForwarding = false ∧
        Effect.openserial_printError errcode_t.ERR_NO_FREE_PACKET_BUFFER 2 0 ∈
          (light_receive_beacon c e pkt v).2)) := by
  have hd := light_receive_data_quiet c e pkt v (Or.inr (Or.inr (Or.inr (Or.inr hnone))))
  have hb := light_receive_beacon_quiet c e pkt v
    (Or.inr (Or.inr (Or.inr (Or.inr (Or.inr hnone)))))
  have hsink : ∀ w : light_vars_t,
      Effect.openqueue_getFreePacketBuffer ∉ light_process_packet_at_sink c w := by
    intro w
    unfold light_process_packet_at_sink
    cases c.LIGHT_CALCULATE_DELAY <;> cases w.light_state <;> simp
  refine ⟨?_, ⟨hd.1, hd.2.1, hd.2.2.1, hd.2.2.2, ?_⟩, ⟨hb.1, hb.2.1, hb.2.2.1, hb.2.2.2, ?_⟩⟩
  · unfold light_send_task_cb
    simp [hnone]
  · intro hmem
    have hidle : v.busyForwarding = false := by
      cases hbusy : v.busyForwarding
      · rfl
      · exfalso
        revert hmem
        unfold light_receive_data
        simp only []
        split
        · simp
        · split
          · cases c.LIGHT_DEBUG <;> simp
          · split
            · have := hsink { v with seqnum := (light_decode pkt.payload).1,
                                     light_state := (light_decode pkt.payload).2 }
              cases c.LIGHT_DEBUG <;> simp [this]
            · simp only [hbusy]
              cases c.LIGHT_DEBUG <;> simp
    refine ⟨hidle, by rw [hd.1, hidle], ?_⟩
    revert hmem
    unfold light_receive_data
    simp only []
    split
    · simp
    · split
      · cases c.LIGHT_DEBUG <;> simp
      · split
        · have := hsink { v with seqnum := (light_decode pkt.payload).1,
                                 light_state := (light_decode pkt.payload).2 }
          cases c.LIGHT_DEBUG <;> simp [this]
        · simp only [hidle, light_schedule_fwd, hnone]
          cases c.LIGHT_DEBUG <;> simp
  · intro hmem
    have hidle : v.busyForwarding = false := by
      cases hbusy : v.busyForwarding
      · rfl
      · exfalso
        revert hmem
        unfold light_receive_beacon
        simp only []
        split
        · simp
        · split
          · split
            · split
              · exact hsink _
              · simp
            · simp
          · simp [hbusy]
    refine ⟨hidle, by rw [hb.1, hidle], ?_⟩
    revert hmem
    unfold light_receive_beacon
    simp only []
    split
    · simp
    · split
      · split
        · split
          · intro h
            exact absurd h (hsink _)
          · simp
        · simp
      · split
        · simp
        · simp only [light_schedule_fwd, hnone]
          simp

theorem C16_no_free_buffer_witness :
    (light_receive_data cfg_relay env_no_buffer (data_record 9 true) (vars_at 6 false)).1.seqnum
      = 9 ∧
    (light_receive_data cfg_relay env_no_buffer (data_record 9 true)
      (vars_at 6 false)).1.busyForwarding = false ∧
    light_send_task_cb cfg_source env_no_buffer (vars_at 6 false) =
      (vars_at 6 false, [Effect.openqueue_getFreePacketBuffer,
        Effect.openserial_printError errcode_t.ERR_NO_FREE_PACKET_BUFFER 0 0]) :=
  have h := C16_no_free_buffer cfg_relay env_no_buffer (data_record 9 true) (vars_at 6 false)
    (by decide)
  ⟨by decide, (h.2.1.2.2.2.2 (by decide)).2.1,
   (C16_no_free_buffer cfg_source env_no_buffer (data_record 9 true) (vars_at 6 false)
      (by decide)).1⟩

/-! ## Roles -/

theorem land_0xff (a : Nat) : a &&& 0xff = a % 256 := by
  have h := Nat.and_pow_two_sub_one_eq_mod a 8
  simpa using h

theorem shiftRight_8 (a : Nat) : a >>> 8 = a / 256 := by
  simp [Nat.shiftRight_eq_div_pow]

theorem light_checkMyId_iff (c : Config) (addr : Nat) :
    light_checkMyId c addr = true ↔
      byteAt c.addr_64b 7 = addr % 65536 % 256 ∧ byteAt c.addr_64b 6 = addr % 65536 / 256 := by
  unfold light_checkMyId
  rw [land_0xff, shiftRight_8]
  simp

theorem light_checkMyId_unique (c : Config) (a b : Nat)
    (ha : light_checkMyId c a = true) (hb : light_checkMyId c b = true) :
    a % 65536 = b % 65536 := by
  obtain ⟨ha1, ha2⟩ := (light_checkMyId_iff c a).mp ha
  obtain ⟨hb1, hb2⟩ := (light_checkMyId_iff c b).mp hb
  have h1 : a % 65536 % 256 = b % 65536 % 256 := by rw [← ha1, ← hb1]
  have h2 : a % 65536 / 256 = b % 65536 / 256 := by rw [← ha2, ← hb2]
  omega

/-- C17: `light_checkMyId` depends on the node only through its 64-bit
address; for a 16-bit id it is true exactly when byte 7 of the address equals
the low byte of the id and byte 6 its high byte; hence for 16-bit ids `a` and
`b`, if it is true of both then `a = b`, and with `SENSOR_ID` different from
`SINK_ID` (both 16-bit) no node is both Source and Sink. -/
theorem C17_checkMyId_injective (c c2 : Config) (a b : Nat) (ha : a < 65536) (hb : b < 65536) :
    (c2.addr_64b = c.addr_64b → light_checkMyId c2 a = light_checkMyId c a) ∧
    (light_checkMyId c a = true ↔
      byteAt c.addr_64b 7 = a % 256 ∧ byteAt c.addr_64b 6 = a / 256) ∧
    (light_checkMyId c a = true → light_checkMyId c b = true → a = b) ∧
    (c.SENSOR_ID < 65536 → c.SINK_ID < 65536 → c.SENSOR_ID ≠ c.SINK_ID →
      ¬ (light_checkMyId c c.SENSOR_ID = true ∧ light_checkMyId c c.SINK_ID = true)) := by
  refine ⟨?_, ?_, ?_, ?_⟩
  · intro h
    unfold light_checkMyId
    rw [h]
  · rw [light_checkMyId_iff, Nat.mod_eq_of_lt ha]
  · intro h1 h2
    have h := light_checkMyId_unique c a b h1 h2
    rwa [Nat.mod_eq_of_lt ha, Nat.mod_eq_of_lt hb] at h
  · intro h1 h2 hne hboth
    have h := light_checkMyId_unique c _ _ hboth.1 hboth.2
    rw [Nat.mod_eq_of_lt h1, Nat.mod_eq_of_lt h2] at h
    exact hne h

theorem C17_checkMyId_injective_witness :
    (light_checkMyId cfg_sink 2 = true ↔
      byteAt cfg_sink.addr_64b 7 = 2 % 256 ∧ byteAt cfg_sink.addr_64b 6 = 2 / 256) ∧
    ¬ (light_checkMyId cfg_sink cfg_sink.SENSOR_ID = true ∧
      light_checkMyId cfg_sink cfg_sink.SINK_ID = true) :=
  have h := C17_checkMyId_injective cfg_sink cfg_source 2 1 (by decide) (by decide)
  ⟨h.2.1, h.2.2.2 (by decide) (by decide) (by decide)⟩

/-! ## The codec -/

theorem lor_shiftLeft_8 (x y : Nat) (hx : x < 256) : x ||| (y <<< 8) = x + y * 256 := by
  have h : 2 ^ 8 * y + x = 2 ^ 8 * y ||| x := Nat.mul_add_lt_is_or (by simpa using hx) y
  rw [Nat.shiftLeft_eq, Nat.lor_comm, Nat.mul_comm y (2 ^ 8), ← h]
  norm_num
  omega

theorem light_decode_le_bytes (s : Nat) (b : Bool) (rest : List Nat) :
    light_decode (s % 256 :: s / 256 % 256 :: (if b then 1 else 0) :: rest) = (s % 65536, b) := by
  unfold light_decode byteAt
  simp only [List.getD_cons_zero, List.getD_cons_succ]
  rw [lor_shiftLeft_8 _ _ (Nat.mod_lt _ (by norm_num))]
  refine Prod.ext ?_ ?_
  · show (s % 256 % 256 + s / 256 % 256 % 256 * 256) % 65536 = s % 65536
    omega
  · cases b <;> simp

/-- C18: codec round trip, on the record layout the spec fixes.  For every
16-bit sequence number `s` and every state `b`, the payload written by
`light_format_packet` from a `light_vars` holding `s` and `b` carries `s`
little-endian at payload offsets 0-1 and `b` (0 or 1) at offset 2, and the
decoder of `light_receive_data` (`seqnum = payload[0] | payload[1] << 8`,
`state = payload[2]`) applied to that payload yields exactly `(s, b)`. -/
theorem C18_codec_round_trip (c : Config) (v : light_vars_t) (buf : OpenQueueEntry_t)
    (s : Nat) (b : Bool) (hs : s < 65536) :
    byteAt (light_format_packet c { v with seqnum := s, light_state := b } buf).payload 0
      = s % 256 ∧
    byteAt (light_format_packet c { v with seqnum := s, light_state := b } buf).payload 1
      = s / 256 ∧
    byteAt (light_format_packet c { v with seqnum := s, light_state := b } buf).payload 2
      = (if b then 1 else 0) ∧
    light_decode (light_format_packet c { v with seqnum := s, light_state := b } buf).payload
      = (s, b) := by
  have hp : (light_format_packet c { v with seqnum := s, light_state := b } buf).payload =
      s % 256 :: s / 256 % 256 :: (if b then 1 else 0) ::
        ([0xdddd % 256, 0xdddd / 256 % 256, c.myShortID % 65536 % 256,
          c.myShortID % 65536 / 256 % 256] ++ buf.payload) := by
    simp only [light_format_packet, light_header, light_ht_bytes, List.cons_append]
  rw [hp]
  refine ⟨?_, ?_, ?_, ?_⟩
  · simp only [byteAt, List.getD_cons_zero]
    omega
  · simp only [byteAt, List.getD_cons_zero, List.getD_cons_succ]
    omega
  · simp only [byteAt, List.getD_cons_zero, List.getD_cons_succ]
    cases b <;> simp
  · rw [light_decode_le_bytes, Nat.mod_eq_of_lt hs]

theorem C18_codec_round_trip_witness :
    light_decode (light_format_packet cfg_relay (vars_at 6 true) empty_buffer).payload =
      (6, true) ∧
    light_decode (light_format_packet cfg_relay (vars_at 65535 false) empty_buffer).payload =
      (65535, false) :=
  ⟨(C18_codec_round_trip cfg_relay (vars_at 6 true) empty_buffer 6 true (by decide)).2.2.2,
   (C18_codec_round_trip cfg_relay (vars_at 65535 false) empty_buffer 65535 false
      (by decide)).2.2.2⟩

/-! ## The Source on the data path -/

/-- C19: on a synchronized Source, a data record with a sequence number above
the local one overwrites `seqnum` and `light_state` with the received values,
whereas no beacon changes the Source's `light_state`.  With `SENSOR_ID` and
`SINK_ID` distinct 16-bit ids (so that the Source is not the Sink), if the node
is not busy forwarding and a buffer is available, a forward is scheduled:
`busyForwarding` is set, `pktToForward` is the buffer formatted from the
received values and exactly one forward timer is started. -/
theorem C19_source_overwritten_by_data (c : Config) (e : Env) (pkt bpkt : OpenQueueEntry_t)
    (v : light_vars_t) (hsync : e.isSynch = true)
    (hsrc : light_checkMyId c c.SENSOR_ID = true)
    (hnew : v.seqnum < (light_decode pkt.payload).1) :
    (light_receive_data c e pkt v).1.seqnum = (light_decode pkt.payload).1 ∧
    (light_receive_data c e pkt v).1.light_state = (light_decode pkt.payload).2 ∧
    (light_receive_beacon c e bpkt v).1.light_state = v.light_state ∧
    (∀ buf, c.SENSOR_ID % 65536 ≠ c.SINK_ID % 65536 → v.busyForwarding = false →
      e.freeBuffer = some buf →
      (light_receive_data c e pkt v).1.busyForwarding = true ∧
      (light_receive_data c e pkt v).1.pktToForward =
        some (light_format_packet c
          { v with seqnum := (light_decode pkt.payload).1
                   light_state := (light_decode pkt.payload).2 } buf) ∧
      (light_receive_data c e pkt v).2.countP (Effect.starts timer_cb_t.light_timer_fwd_cb)
        = 1) := by
  have hnle : ¬ (light_decode pkt.payload).1 ≤ v.seqnum := by omega
  have hadopt : (light_receive_data c e pkt v).1.seqnum = (light_decode pkt.payload).1 ∧
      (light_receive_data c e pkt v).1.light_state = (light_decode pkt.payload).2 := by
    have hs : ¬ ((e.isSynch == false) = true) := by simp [hsync]
    unfold light_receive_data
    simp only []
    rw [if_neg hs, if_neg hnle]
    split
    · exact ⟨rfl, rfl⟩
    · split
      · exact ⟨rfl, rfl⟩
      · exact light_schedule_fwd_seqnum _ _ _ _ _ _ _
  refine ⟨hadopt.1, hadopt.2, ?_, ?_⟩
  · unfold light_receive_beacon
    simp only [hsrc]
    split
    · rfl
    · split
      · split
        · split <;> simp
        · rfl
      · split
        · rfl
        · exact (light_schedule_fwd_seqnum _ _ _ _ _ _ _).2
  · intro buf hids hidle hbuf
    have hnotsink : light_checkMyId c c.SINK_ID = false := by
      cases hk : light_checkMyId c c.SINK_ID
      · rfl
      · exact absurd (light_checkMyId_unique c _ _ hsrc hk) hids
    unfold light_receive_data light_schedule_fwd
    simp only [hsync, hnotsink, hidle, hnle, hbuf]
    refine ⟨by simp, by simp, ?_⟩
    cases c.LIGHT_DEBUG <;> simp [Effect.starts]

theorem C19_source_overwritten_by_data_witness :
    (light_receive_data cfg_source env_ok (data_record 9 false) (vars_at 5 true)).1.seqnum = 9 ∧
    (light_receive_data cfg_source env_ok (data_record 9 false) (vars_at 5 true)).1.light_state
      = false ∧
    (light_receive_data cfg_source env_ok (data_record 9 false)
      (vars_at 5 true)).1.busyForwarding = true :=
  have h := C19_source_overwritten_by_data cfg_source env_ok (data_record 9 false)
    (beacon 9 false 256) (vars_at 5 true) (by decide) (by decide) (by decide)
  ⟨h.1.trans (by decide), h.2.1.trans (by decide),
   (h.2.2.2 empty_buffer (by decide) (by decide) rfl).1⟩

/-! ## Mixed signedness in the beacon test -/

/-- C20: on a target whose `int` is wider than 16 bits, the beacon test
`counter >= light_vars.seqnum` is false for every negative counter and for
every local `seqnum` above 32767; a beacon for which the test is false leaves
`seqnum` and `light_state` as they are (the stale branch); and whenever the
adopt branch is taken on a synchronized node, the counter is non-negative and
the sequence number read back by `light_get_seqnum` equals the counter. -/
theorem C20_mixed_sign_comparison (c : Config) (e : Env) (pkt : OpenQueueEntry_t)
    (v : light_vars_t) (hwide : c.int_wide = true) :
    (toI16 pkt.l2_floodingCounter < 0 →
      beacon_is_recent c (toI16 pkt.l2_floodingCounter) v.seqnum = false) ∧
    (32767 < v.seqnum →
      beacon_is_recent c (toI16 pkt.l2_floodingCounter) v.seqnum = false) ∧
    (beacon_is_recent c (toI16 pkt.l2_floodingCounter) v.seqnum = false →
      light_get_seqnum (light_receive_beacon c e pkt v).1 = v.seqnum ∧
      (light_receive_beacon c e pkt v).1.light_state = v.light_state) ∧
    (e.isSynch = true →
      beacon_is_recent c (toI16 pkt.l2_floodingCounter) v.seqnum = true →
      0 ≤ toI16 pkt.l2_floodingCounter ∧
      (light_get_seqnum (light_receive_beacon c e pkt v).1 : Int) =
        toI16 pkt.l2_floodingCounter) := by
  have hr := toI16_range pkt.l2_floodingCounter
  have htest : beacon_is_recent c (toI16 pkt.l2_floodingCounter) v.seqnum =
      decide (toI16 pkt.l2_floodingCounter ≥ (v.seqnum : Int)) := by
    unfold beacon_is_recent
    rw [if_pos hwide]
  refine ⟨?_, ?_, ?_, ?_⟩
  · intro hneg
    rw [htest, decide_eq_false_iff_not]
    omega
  · intro hbig
    rw [htest, decide_eq_false_iff_not]
    omega
  · intro hstale
    unfold light_get_seqnum light_receive_beacon
    simp only [hstale, Bool.false_eq_true, if_false]
    split
    · exact ⟨rfl, rfl⟩
    · split
      · exact ⟨rfl, rfl⟩
      · exact light_schedule_fwd_seqnum _ _ _ _ _ _ _
  · intro hsync hrec
    have hge : (v.seqnum : Int) ≤ toI16 pkt.l2_floodingCounter := by
      rw [htest, decide_eq_true_eq] at hrec
      exact hrec
    refine ⟨by omega, ?_⟩
    have hu := toU16_of_range (toI16 pkt.l2_floodingCounter) (by omega) (by omega)
    have hseq : (light_receive_beacon c e pkt v).1.seqnum =
        toU16 (toI16 pkt.l2_floodingCounter) := by
      unfold light_receive_beacon
      simp only [hsync, hrec]
      by_cases hst : v.light_state = pkt.l2_floodingState
      · simp [hst]
      · have hne : (v.light_state != pkt.l2_floodingState) = true := by
          cases h1 : v.light_state <;> cases h2 : pkt.l2_floodingState <;> simp_all
        simp only [hne]
        cases light_checkMyId c c.SENSOR_ID <;> cases light_checkMyId c c.SINK_ID <;> simp
    unfold light_get_seqnum
    rw [hseq]
    exact hu

theorem C20_mixed_sign_comparison_witness :
    beacon_is_recent cfg_relay (toI16 (beacon (-1) true 256).l2_floodingCounter)
      (vars_at 5 false).seqnum = false ∧
    (light_get_seqnum (light_receive_beacon cfg_relay env_ok (beacon 9 true 256)
      (vars_at 5 false)).1 : Int) = 9 :=
  have h := C20_mixed_sign_comparison cfg_relay env_ok (beacon (-1) true 256) (vars_at 5 false)
    (by decide)
  ⟨h.1 (by decide),
   ((C20_mixed_sign_comparison cfg_relay env_ok (beacon 9 true 256) (vars_at 5 false)
      (by decide)).2.2.2 (by decide) (by decide)).2.trans (by decide)⟩

end Light
